import Mathlib

/-!
# alyan-space-be: token codec and session manager

A shallow embedding of `src/utils/jwt.js`, `src/models/User.js`,
`src/services/authService.js`, `src/middleware/auth.js`, the handlers of
`src/controllers/authController.js` for login, refresh and logout, and the
logout route of `src/routes/auth.js`.

Conventions of the embedding

* A thrown `Error` is `Except.error` carrying the message text.
* The wall clock is an explicit argument `now`, in milliseconds as `Date.now()`;
  the token library works in whole seconds, `now / 1000`.
* An environment variable is `Option String`; `none` is an unset or empty
  variable (both are falsy in the source).
* An `ObjectId` is a natural number.
* `async` functions run to completion: one call is one transition of the store.
-/

/-! ## JavaScript values and plain objects -/

/-- A JSON value as it occurs in a token payload. `oid i` is the text form of
the ObjectId `i`. -/
inductive JsVal where
  | str (s : String)
  | num (n : Nat)
  | oid (i : Nat)
  deriving DecidableEq, Repr

/-- A plain object: its own enumerable properties in insertion order. -/
abbrev JsObject := List (String × JsVal)

/-- Property read `o[k]`; `none` is `undefined`. -/
def JsObject.getProp (o : JsObject) (k : String) : Option JsVal :=
  List.lookup k o

/-- Property write `o[k] = v`: an existing key keeps its position, a new key is
appended. -/
def JsObject.setProp : JsObject → String → JsVal → JsObject
  | [], k, v => [(k, v)]
  | (k0, v0) :: rest, k, v =>
    if k0 = k then (k, v) :: rest else (k0, v0) :: JsObject.setProp rest k v

/-! ## Constants: `src/constants/auth.js`, `src/config/auth.js` -/

namespace AUTH_MESSAGES
namespace SUCCESS
def LOGIN : String := "Login successful"
def LOGOUT : String := "Logout successful"
def TOKEN_REFRESHED : String := "Token refreshed successfully"
end SUCCESS
namespace ERROR
def INVALID_CREDENTIALS : String := "Invalid email or password"
def USER_NOT_FOUND : String := "User not found"
def INVALID_TOKEN : String := "Invalid or expired token"
def TOKEN_REQUIRED : String := "Access token is required"
def REFRESH_TOKEN_REQUIRED : String := "Refresh token is required"
def UNAUTHORIZED : String := "Access denied. Admin privileges required."
def ALREADY_AUTHENTICATED : String := "User already authenticated"
def SESSION_EXPIRED : String := "Session expired. Please login again."
end ERROR
end AUTH_MESSAGES

namespace AUTH_ROLES
def ADMIN : String := "admin"
end AUTH_ROLES

namespace TOKEN_TYPES
def ACCESS : String := "access"
def REFRESH : String := "refresh"
end TOKEN_TYPES

namespace AUTH_CONFIG
namespace JWT
/-- The source has the text 15m, which the token library reads as 900 seconds. -/
def ACCESS_TOKEN_EXPIRY : Nat := 15 * 60
/-- The source has the text 7d, which the token library reads as 604800 seconds. -/
def REFRESH_TOKEN_EXPIRY : Nat := 7 * 24 * 60 * 60
end JWT
end AUTH_CONFIG

/-- The process environment read by the source, and the one runtime facility the
schema relies on: `emailPattern` is the regular-expression test of `User.js` line 15. -/
structure Env where
  ADMIN_EMAIL : String
  ADMIN_PASSWORD : Option String
  JWT_SECRET : Option String
  JWT_REFRESH_SECRET : Option String
  emailPattern : String → Bool

/-! ## The `jsonwebtoken` library (HS256), with an ideal MAC

A token is either text that does not parse as a JWT, or a payload together with
the key it was signed with. Two tokens are the same string exactly when they are
the same value here: the compact serialisation is a function of payload and key,
and the MAC is taken to be collision free. -/

inductive Jwt where
  | malformed (raw : String)
  | signed (payload : JsObject) (key : String)
  deriving DecidableEq, Repr

/-- The `name` of an error thrown by `jwt.verify`. -/
inductive JwtError where
  | TokenExpiredError
  | NotBeforeError
  | JsonWebTokenError
  deriving DecidableEq, Repr

namespace jwt

/-- The check of `validatePayload` on a registered claim: absent or a number. -/
def claimIsNumber (payload : JsObject) (k : String) : Bool :=
  match JsObject.getProp payload k with
  | none => true
  | some (JsVal.num _) => true
  | some _ => false

/-- The `jwt.sign(payload, secret, expiresIn)` call at second `nowSec`; `none` is any throw. -/
def sign (payload : JsObject) (secret : Option String) (expiresIn : Nat)
    (nowSec : Nat) : Option Jwt :=
  match secret with
  | none => none
  | some key =>
    if !(claimIsNumber payload "iat" && claimIsNumber payload "exp"
          && claimIsNumber payload "nbf") then none
    else if (JsObject.getProp payload "exp").isSome then none
    else
      let timestamp :=
        match JsObject.getProp payload "iat" with
        | some (JsVal.num n) => if n = 0 then nowSec else n
        | _ => nowSec
      let withIat := JsObject.setProp payload "iat" (JsVal.num timestamp)
      let withExp := JsObject.setProp withIat "exp" (JsVal.num (timestamp + expiresIn))
      some (Jwt.signed withExp key)

/-- The `jwt.verify(token, secret)` call at second `nowSec`. -/
def verify (token : Jwt) (secret : Option String) (nowSec : Nat) :
    Except JwtError JsObject :=
  match token with
  | Jwt.malformed _ => Except.error JwtError.JsonWebTokenError
  | Jwt.signed payload key =>
    match secret with
    | none => Except.error JwtError.JsonWebTokenError
    | some s =>
      if key ≠ s then Except.error JwtError.JsonWebTokenError
      else
        match JsObject.getProp payload "nbf" with
        | some (JsVal.num n) =>
          if n > nowSec then Except.error JwtError.NotBeforeError
          else
            match JsObject.getProp payload "exp" with
            | some (JsVal.num e) =>
              if nowSec ≥ e then Except.error JwtError.TokenExpiredError
              else Except.ok payload
            | some _ => Except.error JwtError.JsonWebTokenError
            | none => Except.ok payload
        | some _ => Except.error JwtError.JsonWebTokenError
        | none =>
          match JsObject.getProp payload "exp" with
          | some (JsVal.num e) =>
            if nowSec ≥ e then Except.error JwtError.TokenExpiredError
            else Except.ok payload
          | some _ => Except.error JwtError.JsonWebTokenError
          | none => Except.ok payload

end jwt

/-! ## `src/utils/jwt.js` -/

namespace JWTService

def generateAccessToken (env : Env) (now : Nat) (payload : JsObject) : Except String Jwt :=
  match jwt.sign (JsObject.setProp payload "type" (JsVal.str TOKEN_TYPES.ACCESS))
      env.JWT_SECRET AUTH_CONFIG.JWT.ACCESS_TOKEN_EXPIRY (now / 1000) with
  | some token => Except.ok token
  | none => Except.error "Failed to generate access token"

def generateRefreshToken (env : Env) (now : Nat) (payload : JsObject) : Except String Jwt :=
  match jwt.sign (JsObject.setProp payload "type" (JsVal.str TOKEN_TYPES.REFRESH))
      env.JWT_REFRESH_SECRET AUTH_CONFIG.JWT.REFRESH_TOKEN_EXPIRY (now / 1000) with
  | some token => Except.ok token
  | none => Except.error "Failed to generate refresh token"

def verifyAccessToken (env : Env) (now : Nat) (token : Jwt) : Except String JsObject :=
  match jwt.verify token env.JWT_SECRET (now / 1000) with
  | Except.ok decoded =>
    if JsObject.getProp decoded "type" ≠ some (JsVal.str TOKEN_TYPES.ACCESS) then
      Except.error "Invalid token type"
    else Except.ok decoded
  | Except.error JwtError.TokenExpiredError => Except.error "Access token expired"
  | Except.error JwtError.JsonWebTokenError => Except.error "Invalid access token"
  | Except.error JwtError.NotBeforeError => Except.error "jwt not active"

def verifyRefreshToken (env : Env) (now : Nat) (token : Jwt) : Except String JsObject :=
  match jwt.verify token env.JWT_REFRESH_SECRET (now / 1000) with
  | Except.ok decoded =>
    if JsObject.getProp decoded "type" ≠ some (JsVal.str TOKEN_TYPES.REFRESH) then
      Except.error "Invalid token type"
    else Except.ok decoded
  | Except.error JwtError.TokenExpiredError => Except.error "Refresh token expired"
  | Except.error JwtError.JsonWebTokenError => Except.error "Invalid refresh token"
  | Except.error JwtError.NotBeforeError => Except.error "jwt not active"

end JWTService

/-! ## The `bcryptjs` library, idealised

A digest matches exactly the secret it was computed from. The digest is kept
abstract: nothing in the embedding reads it except `bcrypt.compare`. -/

structure Digest where
  preimage : String
  deriving DecidableEq, Repr

namespace bcrypt

def hash (secret : String) : Digest := ⟨secret⟩

def compare (candidate : String) (digest : Digest) : Bool :=
  candidate == digest.preimage

end bcrypt

/-! ## `src/models/User.js`

Only the paths declared in the schema are modelled; the bookkeeping paths that
Mongoose maintains on its own (`createdAt`, `updatedAt`, `__v`) are left out. -/

structure RefreshTokenRecord where
  token : Jwt
  createdAt : Nat
  deriving DecidableEq, Repr

structure User where
  _id : Nat
  email : String
  password : Digest
  role : String
  isActive : Bool
  lastLoginAt : Option Nat
  refreshTokens : List RefreshTokenRecord
  deriving DecidableEq, Repr

/-- The `users` collection. -/
abbrev Store := List User

/-- The document after the `toJSON` transform: `password`, `refreshTokens` and
`__v` are deleted. -/
structure UserJSON where
  _id : Nat
  email : String
  role : String
  isActive : Bool
  lastLoginAt : Option Nat
  deriving DecidableEq, Repr

namespace User

/-- The setters of the `email` path: `lowercase: true, trim: true`. -/
def normalizeEmail (email : String) : String :=
  String.mk
    (((email.data.map Char.toLower).dropWhile Char.isWhitespace).reverse.dropWhile
      Char.isWhitespace).reverse

/-- An ObjectId that no stored document carries. -/
def freshId (db : Store) : Nat :=
  (db.map (fun u => u._id)).foldr max 0 + 1

/-- The `document.save()` call of an already stored document: the stored
document with the same `_id` is replaced. -/
def save : Store → User → Store
  | [], _ => []
  | d :: rest, u => if d._id = u._id then u :: rest else d :: save rest u

/-- The `new User(fields).save()` call: schema validation on the casted values,
the pre-save hash, then the insert under the unique index on `email`. -/
def create (env : Env) (db : Store) (email password role : String) : Except String Store :=
  let casted := normalizeEmail email
  if casted = "" ∨ !(env.emailPattern casted) ∨ password.length < 6
      ∨ role ≠ AUTH_ROLES.ADMIN then
    Except.error "User validation failed"
  else if db.any (fun u => u.email == casted) then
    Except.error "E11000 duplicate key error"
  else
    Except.ok (db ++ [{ _id := freshId db, email := casted,
                        password := bcrypt.hash password, role := role,
                        isActive := true, lastLoginAt := none,
                        refreshTokens := [] }])

/-- Mongoose cast of a value used as `_id` in a query. -/
def castObjectId : Option JsVal → Except String (Option Nat)
  | none => Except.ok none
  | some (JsVal.oid i) => Except.ok (some i)
  | some _ => Except.error "Cast to ObjectId failed"

/-- The `User.findById(id)` query; `findById(undefined)` finds nothing. -/
def findById (db : Store) (id : Option Nat) : Option User :=
  match id with
  | some i => db.find? (fun u => u._id == i)
  | none => none

def findByEmailWithPassword (db : Store) (email : String) : Option User :=
  db.find? (fun u => u.email == normalizeEmail email && u.isActive)

def comparePassword (u : User) (candidatePassword : String) : Bool :=
  bcrypt.compare candidatePassword u.password

/-- Returns the mutated document and the store after `this.save()`. -/
def addRefreshToken (db : Store) (u : User) (token : Jwt) (now : Nat) : User × Store :=
  let u1 := { u with refreshTokens := u.refreshTokens ++ [{ token := token, createdAt := now }] }
  (u1, save db u1)

def removeRefreshToken (db : Store) (u : User) (token : Jwt) : User × Store :=
  let u1 := { u with refreshTokens := u.refreshTokens.filter (fun refreshToken => refreshToken.token ≠ token) }
  (u1, save db u1)

def removeAllRefreshTokens (db : Store) (u : User) : User × Store :=
  let u1 := { u with refreshTokens := [] }
  (u1, save db u1)

def updateLastLogin (db : Store) (u : User) (now : Nat) : User × Store :=
  let u1 := { u with lastLoginAt := some now }
  (u1, save db u1)

def toJSON (u : User) : UserJSON :=
  { _id := u._id, email := u.email, role := u.role, isActive := u.isActive,
    lastLoginAt := u.lastLoginAt }

end User

structure TokenPair where
  accessToken : Jwt
  refreshToken : Jwt
  deriving DecidableEq, Repr

namespace JWTService

/-- The payload built by `generateTokenPair`. -/
def pairPayload (user : User) : JsObject :=
  [("userId", JsVal.oid user._id), ("email", JsVal.str user.email),
   ("role", JsVal.str user.role)]

def generateTokenPair (env : Env) (now : Nat) (user : User) : Except String TokenPair :=
  match generateAccessToken env now (pairPayload user) with
  | Except.error e => Except.error e
  | Except.ok accessToken =>
    match generateRefreshToken env now (pairPayload user) with
    | Except.error e => Except.error e
    | Except.ok refreshToken => Except.ok { accessToken := accessToken, refreshToken := refreshToken }

end JWTService

/-! ## `src/services/authService.js`

Every operation returns its outcome together with the store it leaves behind,
also when it throws: a write made before the throw stays. -/

structure AuthResult where
  user : UserJSON
  accessToken : Jwt
  refreshToken : Jwt
  deriving DecidableEq, Repr

namespace AuthService

/-- Lines 58 to 78 of `login`, after the password check. -/
def issueSession (env : Env) (db : Store) (now : Nat) (user : User) :
    Except String AuthResult × Store :=
  match JWTService.generateTokenPair env now user with
  | Except.error e => (Except.error e, db)
  | Except.ok tokens =>
    let (u1, db1) := User.addRefreshToken db user tokens.refreshToken now
    let (u2, db2) := User.updateLastLogin db1 u1 now
    (Except.ok { user := User.toJSON u2, accessToken := tokens.accessToken,
                 refreshToken := tokens.refreshToken }, db2)

/-- Lines 48 to 56 of `login`. -/
def checkPassword (env : Env) (db : Store) (now : Nat) (user : User) (password : String) :
    Except String AuthResult × Store :=
  if !(User.comparePassword user password) then
    (Except.error AUTH_MESSAGES.ERROR.INVALID_CREDENTIALS, db)
  else issueSession env db now user

/-- Lines 32 to 46 of `login`: find or create admin user. -/
def findOrCreateAdmin (env : Env) (db : Store) (email adminPassword : String) :
    Except String User × Store :=
  match User.findByEmailWithPassword db email with
  | some user => (Except.ok user, db)
  | none =>
    match User.create env db env.ADMIN_EMAIL adminPassword "admin" with
    | Except.error e => (Except.error e, db)
    | Except.ok db1 =>
      match User.findByEmailWithPassword db1 email with
      | some user => (Except.ok user, db1)
      | none => (Except.error "Cannot read properties of null", db1)

def login (env : Env) (db : Store) (now : Nat) (email password : String) :
    Except String AuthResult × Store :=
  if email ≠ env.ADMIN_EMAIL then
    (Except.error AUTH_MESSAGES.ERROR.INVALID_CREDENTIALS, db)
  else
    match env.ADMIN_PASSWORD with
    | none => (Except.error "Authentication system misconfigured", db)
    | some adminPassword =>
      match findOrCreateAdmin env db email adminPassword with
      | (Except.error e, db1) => (Except.error e, db1)
      | (Except.ok user, db1) => checkPassword env db1 now user password

def refreshToken (env : Env) (db : Store) (now : Nat) (refreshToken : Jwt) :
    Except String AuthResult × Store :=
  match JWTService.verifyRefreshToken env now refreshToken with
  | Except.error e => (Except.error e, db)
  | Except.ok decoded =>
    match User.castObjectId (JsObject.getProp decoded "userId") with
    | Except.error e => (Except.error e, db)
    | Except.ok id =>
      match User.findById db id with
      | none => (Except.error AUTH_MESSAGES.ERROR.USER_NOT_FOUND, db)
      | some user =>
        if !user.isActive then (Except.error AUTH_MESSAGES.ERROR.USER_NOT_FOUND, db)
        else if !(user.refreshTokens.any (fun token => token.token = refreshToken)) then
          (Except.error AUTH_MESSAGES.ERROR.INVALID_TOKEN, db)
        else
          match JWTService.generateTokenPair env now user with
          | Except.error e => (Except.error e, db)
          | Except.ok tokens =>
            let (u1, db1) := User.removeRefreshToken db user refreshToken
            let (u2, db2) := User.addRefreshToken db1 u1 tokens.refreshToken now
            (Except.ok { user := User.toJSON u2, accessToken := tokens.accessToken,
                         refreshToken := tokens.refreshToken }, db2)

/-- A cookie value is `none` when the cookie is missing; the empty string is
falsy as well. -/
def truthyToken : Option Jwt → Option Jwt
  | some (Jwt.malformed "") => none
  | t => t

def logout (db : Store) (refreshToken : Option Jwt) (userId : Option Nat) :
    Except String Unit × Store :=
  match User.findById db userId, truthyToken refreshToken with
  | some user, some token => (Except.ok (), (User.removeRefreshToken db user token).2)
  | _, _ => (Except.ok (), db)

def logoutAllDevices (db : Store) (userId : Option Nat) : Except String Unit × Store :=
  match User.findById db userId with
  | some user => (Except.ok (), (User.removeAllRefreshTokens db user).2)
  | none => (Except.ok (), db)

def getProfile (db : Store) (userId : Option Nat) : Except String UserJSON :=
  match User.findById db userId with
  | none => Except.error AUTH_MESSAGES.ERROR.USER_NOT_FOUND
  | some user =>
    if !user.isActive then Except.error AUTH_MESSAGES.ERROR.USER_NOT_FOUND
    else Except.ok (User.toJSON user)

end AuthService

/-! ## `src/controllers/authController.js` -/

/-- What a handler does to the refresh-token cookie. -/
inductive CookieEffect where
  | untouched
  | set (value : Jwt)
  | cleared
  deriving DecidableEq, Repr

/-- The response of a handler: status, JSON body, and the cookie effect. -/
structure Response where
  status : Nat
  success : Bool
  message : Option String
  error : Option String
  user : Option UserJSON
  accessToken : Option Jwt
  cookie : CookieEffect
  deriving DecidableEq, Repr

namespace AuthController

def login (env : Env) (db : Store) (now : Nat) (email password : String) : Response × Store :=
  match AuthService.login env db now email password with
  | (Except.ok result, db1) =>
    ({ status := 200, success := true, message := some AUTH_MESSAGES.SUCCESS.LOGIN,
       error := none, user := some result.user, accessToken := some result.accessToken,
       cookie := CookieEffect.set result.refreshToken }, db1)
  | (Except.error e, db1) =>
    ({ status := 401, success := false, message := none, error := some e, user := none,
       accessToken := none, cookie := CookieEffect.untouched }, db1)

def refreshToken (env : Env) (db : Store) (now : Nat) (cookie : Option Jwt) : Response × Store :=
  match AuthService.truthyToken cookie with
  | none =>
    ({ status := 401, success := false, message := none,
       error := some AUTH_MESSAGES.ERROR.REFRESH_TOKEN_REQUIRED, user := none,
       accessToken := none, cookie := CookieEffect.untouched }, db)
  | some token =>
    match AuthService.refreshToken env db now token with
    | (Except.ok result, db1) =>
      ({ status := 200, success := true,
         message := some AUTH_MESSAGES.SUCCESS.TOKEN_REFRESHED, error := none,
         user := some result.user, accessToken := some result.accessToken,
         cookie := CookieEffect.set result.refreshToken }, db1)
    | (Except.error e, db1) =>
      ({ status := 401, success := false, message := none, error := some e, user := none,
         accessToken := none, cookie := CookieEffect.cleared }, db1)

end AuthController

/-! ## `src/utils/jwt.js`: the Authorization header

A header value is text; `none` is a missing header. The prefix test and the
`substring(7)` are taken on the characters of the text: the seven characters
of the prefix are one code unit each. -/

namespace JWTService

def extractTokenFromHeader (authHeader : Option String) : Option String :=
  match authHeader with
  | none => none
  | some header =>
    if header = "" ∨ header.data.take 7 ≠ "Bearer ".data then none
    else some (String.mk (header.data.drop 7))

end JWTService

/-! ## `src/middleware/auth.js`

The middleware receives the token as text. `decode` is the token that a text
denotes, the inverse of the compact serialisation; it is a parameter of the
gate functions. -/

/-- The JSON body and status with which a gate ends a request. -/
structure Rejection where
  status : Nat
  success : Bool
  error : String
  deriving DecidableEq, Repr

/-- What a gate does: it calls `next()` with what it attached to the request,
or it responds. -/
inductive Gate (α : Type) where
  | next (attached : α)
  | rejected (response : Rejection)
  deriving DecidableEq, Repr

/-- The `roles` argument of `authorize`: a single role or an array of roles. -/
inductive RolesArg where
  | one (role : String)
  | many (roles : List String)
  deriving DecidableEq, Repr

namespace Middleware

/-- The response of the catch block of `authenticate`. -/
def authenticateCatch (message : String) : Rejection :=
  { status := 401, success := false,
    error := if message = "Access token expired" then AUTH_MESSAGES.ERROR.SESSION_EXPIRED
             else AUTH_MESSAGES.ERROR.INVALID_TOKEN }

/-- On `next` the pair is `req.user` and `req.token`. -/
def authenticate (env : Env) (decode : String → Jwt) (db : Store) (now : Nat)
    (authHeader : Option String) : Gate (User × String) :=
  match JWTService.extractTokenFromHeader authHeader with
  | none =>
    Gate.rejected { status := 401, success := false, error := AUTH_MESSAGES.ERROR.TOKEN_REQUIRED }
  | some token =>
    if token = "" then
      Gate.rejected { status := 401, success := false, error := AUTH_MESSAGES.ERROR.TOKEN_REQUIRED }
    else
      match JWTService.verifyAccessToken env now (decode token) with
      | Except.error e => Gate.rejected (authenticateCatch e)
      | Except.ok decoded =>
        match User.castObjectId (JsObject.getProp decoded "userId") with
        | Except.error e => Gate.rejected (authenticateCatch e)
        | Except.ok id =>
          match User.findById db id with
          | none =>
            Gate.rejected
              { status := 401, success := false, error := AUTH_MESSAGES.ERROR.UNAUTHORIZED }
          | some user =>
            if !user.isActive then
              Gate.rejected
                { status := 401, success := false, error := AUTH_MESSAGES.ERROR.UNAUTHORIZED }
            else Gate.next (user, token)

/-- The gate returned by `authorize(roles)`, applied to `req.user`. -/
def authorize (roles : RolesArg) (reqUser : Option User) : Gate Unit :=
  match reqUser with
  | none =>
    Gate.rejected { status := 401, success := false, error := AUTH_MESSAGES.ERROR.UNAUTHORIZED }
  | some user =>
    let requiredRoles :=
      match roles with
      | RolesArg.many rs => rs
      | RolesArg.one r => [r]
    if requiredRoles.length ≠ 0 ∧ !(requiredRoles.contains user.role) then
      Gate.rejected { status := 403, success := false, error := AUTH_MESSAGES.ERROR.UNAUTHORIZED }
    else Gate.next ()

def requireAdmin (reqUser : Option User) : Gate Unit :=
  authorize (RolesArg.many [AUTH_ROLES.ADMIN]) reqUser

/-- The `optionalAuth` gate always calls `next()`; the result is what it attached:
`req.user` and `req.token`, or nothing. -/
def optionalAuth (env : Env) (decode : String → Jwt) (db : Store) (now : Nat)
    (authHeader : Option String) : Option (User × String) :=
  match JWTService.extractTokenFromHeader authHeader with
  | none => none
  | some token =>
    if token = "" then none
    else
      match JWTService.verifyAccessToken env now (decode token) with
      | Except.error _ => none
      | Except.ok decoded =>
        match User.castObjectId (JsObject.getProp decoded "userId") with
        | Except.error _ => none
        | Except.ok id =>
          match User.findById db id with
          | none => none
          | some user => if user.isActive then some (user, token) else none

end Middleware

/-! ## A database that may not answer

The operations above run against a database that answers. `Database.down` is a
database whose queries and saves reject with `message`. -/

inductive Database where
  | up
  | down (message : String)
  deriving DecidableEq, Repr

namespace AuthService

/-- The `logout` operation against `database`: when `User.findById` rejects, the catch
block logs and rethrows. -/
def logoutOn (database : Database) (db : Store) (refreshToken : Option Jwt)
    (userId : Option Nat) : Except String Unit × Store :=
  match database with
  | Database.down message => (Except.error message, db)
  | Database.up => logout db refreshToken userId

end AuthService

namespace AuthController

/-- The handler of `POST /api/auth/logout`; `reqUser` is `req.user`. -/
def logout (database : Database) (db : Store) (cookie : Option Jwt) (reqUser : Option User) :
    Response × Store :=
  match AuthService.logoutOn database db cookie (reqUser.map (fun u => u._id)) with
  | (Except.ok _, db1) =>
    ({ status := 200, success := true, message := some AUTH_MESSAGES.SUCCESS.LOGOUT,
       error := none, user := none, accessToken := none, cookie := CookieEffect.cleared }, db1)
  | (Except.error _, db1) =>
    ({ status := 500, success := false, message := none, error := some "Logout failed",
       user := none, accessToken := none, cookie := CookieEffect.cleared }, db1)

end AuthController

/-! ## `src/routes/auth.js` -/

namespace Routes

/-- The route `POST /logout`: `optionalAuth`, then `AuthController.logout`. -/
def logout (env : Env) (decode : String → Jwt) (database : Database) (db : Store) (now : Nat)
    (authHeader : Option String) (cookie : Option Jwt) : Response × Store :=
  AuthController.logout database db cookie
    ((Middleware.optionalAuth env decode db now authHeader).map (fun a => a.1))

end Routes

/-! ## Vocabulary of the statements -/

namespace JWTService

/-- The payload of the token of type `type` that `generateTokenPair` issues for
`user` at second `sec` with lifetime `ttl`. -/
def issuedPayload (user : User) (type : String) (sec ttl : Nat) : JsObject :=
  [("userId", JsVal.oid user._id), ("email", JsVal.str user.email),
   ("role", JsVal.str user.role), ("type", JsVal.str type),
   ("iat", JsVal.num sec), ("exp", JsVal.num (sec + ttl))]

end JWTService

namespace AuthService

/-- The identity a decoded payload refers to: the stored document whose `_id`
is the payload's `userId`. -/
def referencedIdentity (db : Store) (decoded : JsObject) : Option User :=
  match User.castObjectId (JsObject.getProp decoded "userId") with
  | Except.ok id => User.findById db id
  | Except.error _ => none

end AuthService

/-! ## Sample data -/

def demoEnv : Env :=
  { ADMIN_EMAIL := "admin@x.com", ADMIN_PASSWORD := some "secret1",
    JWT_SECRET := some "k1", JWT_REFRESH_SECRET := some "k2",
    emailPattern := fun _ => true }

/-- The refresh token that `demoEnv` issues for identity 1 during second 5. -/
def demoRefreshToken : Jwt :=
  Jwt.signed
    [("userId", JsVal.oid 1), ("email", JsVal.str "admin@x.com"), ("role", JsVal.str "admin"),
     ("type", JsVal.str "refresh"), ("iat", JsVal.num 5), ("exp", JsVal.num 604805)] "k2"

/-- The administrator after a login during second 5. -/
def demoAdmin : User :=
  { _id := 1, email := "admin@x.com", password := bcrypt.hash "secret1", role := "admin",
    isActive := true, lastLoginAt := some 5000,
    refreshTokens := [{ token := demoRefreshToken, createdAt := 5000 }] }

/-- An environment in which the access-token key is not set. -/
def demoEnvNoAccessKey : Env :=
  { ADMIN_EMAIL := "admin@x.com", ADMIN_PASSWORD := some "secret1",
    JWT_SECRET := none, JWT_REFRESH_SECRET := some "k2",
    emailPattern := fun _ => true }

/-- MongoDB keeps `_id` unique within a collection. -/
def Store.uniqueIds (db : Store) : Prop :=
  (db.map (fun u => u._id)).Nodup

namespace User

/-- The paths of a document that the token-record operations never write. -/
def credentials (u : User) : Nat × String × Digest × String × Bool :=
  (u._id, u.email, u.password, u.role, u.isActive)

/-- The document that `create` inserts. -/
def created (db : Store) (email password role : String) : User :=
  { _id := freshId db, email := normalizeEmail email, password := bcrypt.hash password,
    role := role, isActive := true, lastLoginAt := none, refreshTokens := [] }

/-- The document after `addRefreshToken(token)` and `updateLastLogin()` at `now`. -/
def loggedIn (u : User) (token : Jwt) (now : Nat) : User :=
  { u with refreshTokens := u.refreshTokens ++ [{ token := token, createdAt := now }],
           lastLoginAt := some now }

end User

/-- An environment in which the administrator password is not set. -/
def demoEnvNoAdminPassword : Env :=
  { ADMIN_EMAIL := "admin@x.com", ADMIN_PASSWORD := none,
    JWT_SECRET := some "k1", JWT_REFRESH_SECRET := some "k2",
    emailPattern := fun _ => true }

/-- The value that stands for a failed outcome where the value of an outcome is projected. -/
def demoFallback : AuthResult :=
  { user := User.toJSON demoAdmin, accessToken := demoRefreshToken,
    refreshToken := demoRefreshToken }

/-- A rotation of `demoRefreshToken` during second 6, one second after its issuance. -/
def demoRotation : Except String AuthResult × Store :=
  AuthService.refreshToken demoEnv [demoAdmin] 6000 demoRefreshToken

/-- The value returned by `demoRotation`. -/
def demoRotationResult : AuthResult :=
  (demoRotation.1.toOption).getD demoFallback

/-- A login of the administrator during second 7. -/
def demoLogin : Except String AuthResult × Store :=
  AuthService.login demoEnv [demoAdmin] 7000 "admin@x.com" "secret1"

/-- The value returned by `demoLogin`. -/
def demoLoginResult : AuthResult :=
  (demoLogin.1.toOption).getD demoFallback

/-- The administrator, deactivated. -/
def demoAdminInactive : User :=
  { demoAdmin with isActive := false }

/-- The administrator with every session revoked. -/
def demoAdminLoggedOut : User :=
  { demoAdmin with refreshTokens := [] }

/-- The payload of `demoRefreshToken`, signed with a key that is not the refresh key. -/
def demoForgedToken : Jwt :=
  Jwt.signed
    [("userId", JsVal.oid 1), ("email", JsVal.str "admin@x.com"), ("role", JsVal.str "admin"),
     ("type", JsVal.str "refresh"), ("iat", JsVal.num 5), ("exp", JsVal.num 604805)] "guess"

/-- A claims payload as `generateTokenPair` builds it. -/
def demoClaims : JsObject :=
  [("userId", JsVal.oid 1), ("email", JsVal.str "admin@x.com"), ("role", JsVal.str "admin")]

/-- An environment in which both tokens are signed with the same key. -/
def demoEnvSameKey : Env :=
  { ADMIN_EMAIL := "admin@x.com", ADMIN_PASSWORD := some "secret1",
    JWT_SECRET := some "k", JWT_REFRESH_SECRET := some "k",
    emailPattern := fun _ => true }

/-- The access token that `demoEnv` issues for identity 1 during second 5. -/
def demoAccessToken : Jwt :=
  Jwt.signed
    [("userId", JsVal.oid 1), ("email", JsVal.str "admin@x.com"), ("role", JsVal.str "admin"),
     ("type", JsVal.str "access"), ("iat", JsVal.num 5), ("exp", JsVal.num 905)] "k1"

/-- A reading of token texts: `access5` is the text of `demoAccessToken`. -/
def demoDecode (text : String) : Jwt :=
  if text = "access5" then demoAccessToken else Jwt.malformed text

namespace RolesArg

/-- The `requiredRoles` array that `authorize` derives from its argument. -/
def toList : RolesArg → List String
  | RolesArg.many rs => rs
  | RolesArg.one r => [r]

end RolesArg

/-! ## The plain-object form of a user document

`User.toJSON` above is the typed reading of the object that the schema's `toJSON`
option produces. The object itself: `toObject` lists the paths of the document,
`transform` is the function of `User.js` lines 52 to 57. -/

/-- The value of a path of a user document. -/
inductive DocValue where
  | id (i : Nat)
  | text (s : String)
  | digest (d : Digest)
  | flag (b : Bool)
  | date (t : Option Nat)
  | records (rs : List RefreshTokenRecord)
  | version
  deriving DecidableEq, Repr

namespace User

/-- The plain object handed to the transform, `__v` included. -/
def toObject (u : User) : List (String × DocValue) :=
  [("_id", DocValue.id u._id), ("email", DocValue.text u.email),
   ("password", DocValue.digest u.password), ("role", DocValue.text u.role),
   ("isActive", DocValue.flag u.isActive), ("lastLoginAt", DocValue.date u.lastLoginAt),
   ("refreshTokens", DocValue.records u.refreshTokens), ("__v", DocValue.version)]

/-- The `delete ret[k]` statement. -/
def deleteKey (ret : List (String × DocValue)) (k : String) : List (String × DocValue) :=
  ret.filter (fun p => p.1 ≠ k)

def transform (ret : List (String × DocValue)) : List (String × DocValue) :=
  deleteKey (deleteKey (deleteKey ret "password") "refreshTokens") "__v"

end User

/-! ## Lemmas on the store -/

namespace User

theorem findById_some_id {db : Store} {i : Nat} {u : User}
    (h : findById db (some i) = some u) : u._id = i := by
  unfold findById at h
  have := List.find?_some h
  simpa using this

theorem findById_some_mem {db : Store} {i : Nat} {u : User}
    (h : findById db (some i) = some u) : u ∈ db := by
  unfold findById at h
  exact List.mem_of_find?_eq_some h

theorem findById_save_self {db : Store} {i : Nat} {u v : User}
    (h : findById db (some i) = some u) (hv : v._id = i) :
    findById (save db v) (some i) = some v := by
  induction db with
  | nil => simp [findById] at h
  | cons d rest ih =>
    simp only [findById, List.find?_cons] at h ih ⊢
    by_cases hd : d._id = i
    · simp [save, hd, hv, List.find?_cons]
    · have hd2 : ¬ d._id = v._id := by rw [hv]; exact hd
      simp only [save, hd2, if_false, List.find?_cons]
      have hb : (d._id == i) = false := beq_eq_false_iff_ne.mpr hd
      simp only [hb] at h ⊢
      exact ih h

theorem findById_save_other {db : Store} {j : Nat} {v : User} (hj : j ≠ v._id) :
    findById (save db v) (some j) = findById db (some j) := by
  induction db with
  | nil => rfl
  | cons d rest ih =>
    simp only [findById] at ih ⊢
    by_cases hd : d._id = v._id
    · have : ¬ d._id = j := by rw [hd]; exact fun h => hj h.symm
      simp [save, hd, List.find?_cons, this, Ne.symm hj]
    · simp only [save, hd, if_false, List.find?_cons]
      rw [ih]

theorem save_eq_self {db : Store} {i : Nat} {u : User}
    (h : findById db (some i) = some u) : save db u = db := by
  induction db with
  | nil => rfl
  | cons d rest ih =>
    simp only [findById, List.find?_cons] at h ih
    by_cases hd : d._id = i
    · simp [hd] at h
      subst h
      simp [save]
    · have hb : (d._id == i) = false := beq_eq_false_iff_ne.mpr hd
      simp only [hb] at h
      have hu := @findById_some_id rest i u (by simpa [findById] using h)
      have hd2 : ¬ d._id = u._id := by rw [hu]; exact hd
      simp [save, hd2, ih h]

end User

/-! ## Lemmas on the token codec -/

namespace JWTService


theorem generateAccessToken_pair (env : Env) (now : Nat) (user : User) :
    generateAccessToken env now (pairPayload user) =
      match env.JWT_SECRET with
      | some key => Except.ok (Jwt.signed
          (issuedPayload user TOKEN_TYPES.ACCESS (now / 1000) AUTH_CONFIG.JWT.ACCESS_TOKEN_EXPIRY) key)
      | none => Except.error "Failed to generate access token" := by
  cases hk : env.JWT_SECRET with
  | none => simp [generateAccessToken, jwt.sign, hk]
  | some key =>
    simp [generateAccessToken, jwt.sign, hk, pairPayload, JsObject.setProp, JsObject.getProp,
      jwt.claimIsNumber, List.lookup, issuedPayload]

theorem generateRefreshToken_pair (env : Env) (now : Nat) (user : User) :
    generateRefreshToken env now (pairPayload user) =
      match env.JWT_REFRESH_SECRET with
      | some key => Except.ok (Jwt.signed
          (issuedPayload user TOKEN_TYPES.REFRESH (now / 1000) AUTH_CONFIG.JWT.REFRESH_TOKEN_EXPIRY) key)
      | none => Except.error "Failed to generate refresh token" := by
  cases hk : env.JWT_REFRESH_SECRET with
  | none => simp [generateRefreshToken, jwt.sign, hk]
  | some key =>
    simp [generateRefreshToken, jwt.sign, hk, pairPayload, JsObject.setProp, JsObject.getProp,
      jwt.claimIsNumber, List.lookup, issuedPayload]

theorem generateTokenPair_ok_iff (env : Env) (now : Nat) (user : User) (tokens : TokenPair) :
    generateTokenPair env now user = Except.ok tokens ↔
      ∃ k1 k2, env.JWT_SECRET = some k1 ∧ env.JWT_REFRESH_SECRET = some k2 ∧
        tokens =
          { accessToken := Jwt.signed (issuedPayload user TOKEN_TYPES.ACCESS (now / 1000)
              AUTH_CONFIG.JWT.ACCESS_TOKEN_EXPIRY) k1,
            refreshToken := Jwt.signed (issuedPayload user TOKEN_TYPES.REFRESH (now / 1000)
              AUTH_CONFIG.JWT.REFRESH_TOKEN_EXPIRY) k2 } := by
  unfold generateTokenPair
  rw [generateAccessToken_pair, generateRefreshToken_pair]
  cases h1 : env.JWT_SECRET <;> cases h2 : env.JWT_REFRESH_SECRET <;> simp
  constructor
  · intro h; exact h.symm
  · intro h; exact h.symm

/-- Whether a pair can be generated depends on the environment only. -/
theorem generateTokenPair_ok_of_ok {env : Env} {now : Nat} {user : User} {tokens : TokenPair}
    (h : generateTokenPair env now user = Except.ok tokens) (now2 : Nat) (user2 : User) :
    ∃ tokens2, generateTokenPair env now2 user2 = Except.ok tokens2 := by
  obtain ⟨k1, k2, h1, h2, _⟩ := (generateTokenPair_ok_iff env now user tokens).mp h
  exact ⟨_, (generateTokenPair_ok_iff env now2 user2 _).mpr ⟨k1, k2, h1, h2, rfl⟩⟩

theorem verify_ok_signed {token : Jwt} {secret : Option String} {sec : Nat} {d : JsObject}
    (h : jwt.verify token secret sec = Except.ok d) :
    ∃ key, token = Jwt.signed d key ∧ secret = some key := by
  unfold jwt.verify at h
  repeat' split at h
  all_goals simp_all

theorem verifyRefreshToken_ok_signed {env : Env} {now : Nat} {token : Jwt} {decoded : JsObject}
    (h : verifyRefreshToken env now token = Except.ok decoded) :
    ∃ key, token = Jwt.signed decoded key ∧ env.JWT_REFRESH_SECRET = some key ∧
      JsObject.getProp decoded "type" = some (JsVal.str TOKEN_TYPES.REFRESH) := by
  unfold verifyRefreshToken at h
  cases hv : jwt.verify token env.JWT_REFRESH_SECRET (now / 1000) with
  | error e => rw [hv] at h; cases e <;> simp at h
  | ok d =>
    rw [hv] at h
    obtain ⟨key, hk, hs⟩ := verify_ok_signed hv
    by_cases ht : JsObject.getProp d "type" = some (JsVal.str TOKEN_TYPES.REFRESH)
    · simp [ht] at h
      subst h
      exact ⟨key, hk, hs, ht⟩
    · simp [ht] at h

end JWTService

/-! ## Lemmas on the session manager -/

namespace AuthService

theorem referencedIdentity_some_id {db : Store} {decoded : JsObject} {user : User}
    (h : referencedIdentity db decoded = some user) :
    User.castObjectId (JsObject.getProp decoded "userId") = Except.ok (some user._id) ∧
      User.findById db (some user._id) = some user := by
  unfold referencedIdentity at h
  cases hc : User.castObjectId (JsObject.getProp decoded "userId") with
  | error e => simp [hc] at h
  | ok id =>
    rw [hc] at h
    cases id with
    | none => simp [User.findById] at h
    | some i =>
      simp only at h
      have := User.findById_some_id h
      subst this
      exact ⟨rfl, h⟩

/-- What `refreshToken` does once the token has verified and its identity is
loaded and active. -/
theorem refreshToken_of_loaded {env : Env} {db : Store} {now : Nat} {T : Jwt}
    {decoded : JsObject} {user : User}
    (hv : JWTService.verifyRefreshToken env now T = Except.ok decoded)
    (hu : referencedIdentity db decoded = some user) (ha : user.isActive = true) :
    refreshToken env db now T =
      if user.refreshTokens.any (fun token => token.token = T) then
        match JWTService.generateTokenPair env now user with
        | Except.error e => (Except.error e, db)
        | Except.ok tokens =>
          (Except.ok
            { user := User.toJSON
                { user with refreshTokens :=
                    user.refreshTokens.filter (fun r => r.token ≠ T)
                      ++ [{ token := tokens.refreshToken, createdAt := now }] },
              accessToken := tokens.accessToken, refreshToken := tokens.refreshToken },
           User.save
            (User.save db
              { user with refreshTokens := user.refreshTokens.filter (fun r => r.token ≠ T) })
            { user with refreshTokens :=
                user.refreshTokens.filter (fun r => r.token ≠ T)
                  ++ [{ token := tokens.refreshToken, createdAt := now }] })
      else (Except.error AUTH_MESSAGES.ERROR.INVALID_TOKEN, db) := by
  obtain ⟨hc, hf⟩ := referencedIdentity_some_id hu
  unfold refreshToken
  rw [hv]
  simp only [hc, hf, ha]
  by_cases hany : user.refreshTokens.any (fun token => token.token = T) = true
  · simp only [hany]
    cases hg : JWTService.generateTokenPair env now user with
    | error e => simp
    | ok tokens => simp [User.removeRefreshToken, User.addRefreshToken, ha]
  · simp [hany]

/-- A successful `refreshToken` passed every check. -/
theorem refreshToken_ok_inv {env : Env} {db db1 : Store} {now : Nat} {T : Jwt} {res : AuthResult}
    (h : refreshToken env db now T = (Except.ok res, db1)) :
    ∃ decoded user tokens,
      JWTService.verifyRefreshToken env now T = Except.ok decoded ∧
      referencedIdentity db decoded = some user ∧ user.isActive = true ∧
      user.refreshTokens.any (fun token => token.token = T) = true ∧
      JWTService.generateTokenPair env now user = Except.ok tokens ∧
      res.accessToken = tokens.accessToken ∧ res.refreshToken = tokens.refreshToken ∧
      res.user = User.toJSON
        { user with refreshTokens :=
            user.refreshTokens.filter (fun r => r.token ≠ T)
              ++ [{ token := tokens.refreshToken, createdAt := now }] } ∧
      db1 = User.save
        (User.save db
          { user with refreshTokens := user.refreshTokens.filter (fun r => r.token ≠ T) })
        { user with refreshTokens :=
            user.refreshTokens.filter (fun r => r.token ≠ T)
              ++ [{ token := tokens.refreshToken, createdAt := now }] } := by
  cases hv : JWTService.verifyRefreshToken env now T with
  | error e => simp [refreshToken, hv] at h
  | ok decoded =>
    cases hu : referencedIdentity db decoded with
    | none =>
      unfold referencedIdentity at hu
      unfold refreshToken at h
      rw [hv] at h
      simp only at h
      cases hc : User.castObjectId (JsObject.getProp decoded "userId") with
      | error e => simp [hc] at h
      | ok id =>
        rw [hc] at hu h
        simp only at hu h
        rw [hu] at h
        simp at h
    | some user =>
      by_cases ha : user.isActive = true
      · rw [refreshToken_of_loaded hv hu ha] at h
        by_cases hany : user.refreshTokens.any (fun token => token.token = T) = true
        · simp only [hany, if_true] at h
          cases hg : JWTService.generateTokenPair env now user with
          | error e => simp [hg] at h
          | ok tokens =>
            rw [hg] at h
            simp only [Prod.mk.injEq, Except.ok.injEq] at h
            obtain ⟨h1, h2⟩ := h
            subst h1
            exact ⟨decoded, user, tokens, rfl, hu, ha, hany, hg, rfl, rfl, rfl, h2.symm⟩
        · simp [hany] at h
      · obtain ⟨hc, hf⟩ := referencedIdentity_some_id hu
        unfold refreshToken at h
        rw [hv] at h
        simp [hc, hf, ha] at h

end AuthService

namespace JWTService

theorem verify_later {token : Jwt} {secret : Option String} {sec sec2 : Nat} {d : JsObject}
    (h : jwt.verify token secret sec = Except.ok d) (hle : sec ≤ sec2) :
    jwt.verify token secret sec2 = Except.ok d ∨
      jwt.verify token secret sec2 = Except.error JwtError.TokenExpiredError := by
  obtain ⟨key, hk, hs⟩ := verify_ok_signed h
  subst hk hs
  simp only [jwt.verify, ne_eq, not_true_eq_false, if_false] at h ⊢
  cases hn : JsObject.getProp d "nbf" with
  | none =>
    rw [hn] at h
    simp only at h ⊢
    cases he : JsObject.getProp d "exp" with
    | none => simp
    | some v =>
      rw [he] at h
      cases v with
      | num e =>
        simp only at h ⊢
        by_cases h2 : sec2 ≥ e
        · simp [h2]
        · simp [h2]
      | str s => simp at h
      | oid i => simp at h
  | some w =>
    rw [hn] at h
    cases w with
    | num n =>
      simp only at h ⊢
      have hn1 : ¬ n > sec := by
        intro hc
        simp [hc] at h
      have hn2 : ¬ n > sec2 := by omega
      simp only [hn1, hn2, if_false] at h ⊢
      cases he : JsObject.getProp d "exp" with
      | none => simp
      | some v =>
        rw [he] at h
        cases v with
        | num e =>
          simp only at h ⊢
          by_cases h2 : sec2 ≥ e
          · simp [h2]
          · simp [h2]
        | str s => simp at h
        | oid i => simp at h
    | str s => simp at h
    | oid i => simp at h

theorem verifyRefreshToken_later {env : Env} {now now2 : Nat} {token : Jwt} {d : JsObject}
    (h : verifyRefreshToken env now token = Except.ok d) (hle : now ≤ now2) :
    verifyRefreshToken env now2 token = Except.ok d ∨
      verifyRefreshToken env now2 token = Except.error "Refresh token expired" := by
  have ht := (verifyRefreshToken_ok_signed h).choose_spec.2.2
  unfold verifyRefreshToken at h ⊢
  cases hv : jwt.verify token env.JWT_REFRESH_SECRET (now / 1000) with
  | error e => rw [hv] at h; cases e <;> simp at h
  | ok d1 =>
    rw [hv] at h
    have hd : d1 = d := by
      by_cases hty : JsObject.getProp d1 "type" = some (JsVal.str TOKEN_TYPES.REFRESH)
      · simpa [hty] using h
      · simp [hty] at h
    subst hd
    rcases verify_later hv (Nat.div_le_div_right (c := 1000) hle) with h2 | h2
    · left; rw [h2]; simp [ht]
    · right; rw [h2]

theorem verify_ok_unexpired {token : Jwt} {secret : Option String} {sec e : Nat} {d : JsObject}
    (h : jwt.verify token secret sec = Except.ok d)
    (he : JsObject.getProp d "exp" = some (JsVal.num e)) : sec < e := by
  obtain ⟨key, hk, hs⟩ := verify_ok_signed h
  subst hk hs
  simp only [jwt.verify, ne_eq, not_true_eq_false, if_false, he] at h
  by_contra hlt
  have hge : sec ≥ e := Nat.le_of_not_lt hlt
  split at h
  · split at h
    · simp at h
    · simp [hge] at h
  · simp at h
  · simp [hge] at h

theorem verifyRefreshToken_ok_unexpired {env : Env} {now e : Nat} {token : Jwt} {d : JsObject}
    (h : verifyRefreshToken env now token = Except.ok d)
    (he : JsObject.getProp d "exp" = some (JsVal.num e)) : now / 1000 < e := by
  unfold verifyRefreshToken at h
  cases hv : jwt.verify token env.JWT_REFRESH_SECRET (now / 1000) with
  | error err => rw [hv] at h; cases err <;> simp at h
  | ok d1 =>
    rw [hv] at h
    have hd : d1 = d := by
      by_cases hty : JsObject.getProp d1 "type" = some (JsVal.str TOKEN_TYPES.REFRESH)
      · simpa [hty] using h
      · simp [hty] at h
    subst hd
    exact verify_ok_unexpired hv he

end JWTService

namespace AuthService

theorem referencedIdentity_save {db : Store} {decoded : JsObject} {user v : User}
    (h : referencedIdentity db decoded = some user) (hv : v._id = user._id) :
    referencedIdentity (User.save db v) decoded = some v := by
  obtain ⟨hc, hf⟩ := referencedIdentity_some_id h
  unfold referencedIdentity
  rw [hc]
  exact User.findById_save_self hf hv

end AuthService

namespace User

theorem save_ids (db : Store) (v : User) :
    (save db v).map (fun u => u._id) = db.map (fun u => u._id) := by
  induction db with
  | nil => rfl
  | cons d rest ih =>
    by_cases hd : d._id = v._id
    · simp [save, hd]
    · simp [save, hd, ih]

theorem uniqueIds_save {db : Store} (v : User) (h : Store.uniqueIds db) :
    Store.uniqueIds (save db v) := by
  unfold Store.uniqueIds at h ⊢
  rw [save_ids]
  exact h

theorem findById_of_mem {db : Store} {u : User} (h : Store.uniqueIds db) (hu : u ∈ db) :
    findById db (some u._id) = some u := by
  induction db with
  | nil => simp at hu
  | cons d rest ih =>
    unfold Store.uniqueIds at h
    simp only [List.map_cons, List.nodup_cons, List.mem_map, not_exists, not_and] at h
    simp only [findById, List.find?_cons]
    rcases List.mem_cons.mp hu with hd | hr
    · subst hd
      simp
    · have hne : ¬ d._id = u._id := fun hc => h.1 u hr hc.symm
      have hb : (d._id == u._id) = false := beq_eq_false_iff_ne.mpr hne
      simp only [hb]
      exact ih h.2 hr

theorem lt_freshId {db : Store} {u : User} (hu : u ∈ db) : u._id < freshId db := by
  induction db with
  | nil => simp at hu
  | cons d rest ih =>
    simp only [freshId, List.map_cons, List.foldr_cons] at ih ⊢
    rcases List.mem_cons.mp hu with hd | hr
    · subst hd
      omega
    · have := ih hr
      omega

theorem uniqueIds_append_fresh {db : Store} {v : User} (h : Store.uniqueIds db)
    (hv : v._id = freshId db) : Store.uniqueIds (db ++ [v]) := by
  unfold Store.uniqueIds at h ⊢
  rw [List.map_append, List.nodup_append]
  refine ⟨h, by simp, ?_⟩
  intro a ha hb
  simp only [List.map_cons, List.map_nil, List.mem_singleton] at hb
  obtain ⟨u, hu, rfl⟩ := List.mem_map.mp ha
  have := lt_freshId hu
  omega

/-- Saving a document whose credentials are those of the stored one does not
change which credentials a lookup by email finds. -/
theorem findByEmail_save_credentials {db : Store} {u v : User} (e : String)
    (hf : findById db (some v._id) = some u) (hc : credentials v = credentials u) :
    (findByEmailWithPassword (save db v) e).map credentials =
      (findByEmailWithPassword db e).map credentials := by
  induction db with
  | nil => rfl
  | cons d rest ih =>
    simp only [findById, List.find?_cons] at hf ih
    simp only [findByEmailWithPassword, List.find?_cons] at ih ⊢
    by_cases hd : d._id = v._id
    · have hb : (d._id == v._id) = true := by simpa using hd
      simp only [hb] at hf
      have hdu : d = u := by simpa using hf
      subst hdu
      simp only [save, hd, if_true, List.find?_cons]
      have hc2 := hc
      simp only [credentials, Prod.mk.injEq] at hc2
      obtain ⟨_, h2, _, _, h5⟩ := hc2
      rw [h2, h5]
      cases hp : (d.email == normalizeEmail e && d.isActive)
      · rfl
      · simp only [Option.map_some']
        rw [hc]
    · have hb : (d._id == v._id) = false := beq_eq_false_iff_ne.mpr hd
      simp only [hb] at hf
      simp only [save, hd, if_false, List.find?_cons]
      cases hp : (d.email == normalizeEmail e && d.isActive)
      · simpa using ih hf
      · simp

theorem save_emails {db : Store} {u v : User}
    (hf : findById db (some v._id) = some u) (he : v.email = u.email) :
    (save db v).map (fun d => d.email) = db.map (fun d => d.email) := by
  induction db with
  | nil => rfl
  | cons d rest ih =>
    simp only [findById, List.find?_cons] at hf ih
    by_cases hd : d._id = v._id
    · have hb : (d._id == v._id) = true := by simpa using hd
      simp only [hb] at hf
      have hdu : d = u := by simpa using hf
      subst hdu
      simp [save, hd, he]
    · have hb : (d._id == v._id) = false := beq_eq_false_iff_ne.mpr hd
      simp only [hb] at hf
      simp [save, hd, ih hf]

theorem create_ok_inv {env : Env} {db db1 : Store} {email password role : String}
    (h : create env db email password role = Except.ok db1) :
    db1 = db ++ [created db email password role] ∧
      (∀ u ∈ db, u.email ≠ normalizeEmail email) := by
  unfold create at h
  simp only at h
  split at h
  · simp at h
  · split at h
    · simp at h
    · rename_i hany
      simp only [Except.ok.injEq] at h
      refine ⟨h.symm, ?_⟩
      intro u hu hc
      apply hany
      rw [List.any_eq_true]
      exact ⟨u, hu, by simpa using hc⟩

theorem create_ok_of_valid {env : Env} {db : Store} {email password : String}
    (hne : normalizeEmail email ≠ "") (hpat : env.emailPattern (normalizeEmail email) = true)
    (hlen : 6 ≤ password.length) (hfree : ∀ u ∈ db, u.email ≠ normalizeEmail email) :
    create env db email password "admin" =
      Except.ok (db ++ [created db email password "admin"]) := by
  unfold create
  have hany : db.any (fun u => u.email == normalizeEmail email) = false := by
    rw [List.any_eq_false]
    intro u hu
    simpa using hfree u hu
  have hl : ¬ password.length < 6 := by omega
  simp [hne, hpat, hl, hany, AUTH_ROLES.ADMIN, created]

theorem findByEmail_none_of_free {db : Store} {email : String}
    (hfree : ∀ u ∈ db, u.email ≠ normalizeEmail email) :
    findByEmailWithPassword db email = none := by
  unfold findByEmailWithPassword
  rw [List.find?_eq_none]
  intro u hu
  have := hfree u hu
  simp [this]

theorem findByEmail_append_created {db : Store} {email password role : String}
    (h : findByEmailWithPassword db email = none) :
    findByEmailWithPassword (db ++ [created db email password role]) email =
      some (created db email password role) := by
  unfold findByEmailWithPassword at h ⊢
  rw [List.find?_append, h]
  simp [created]

theorem findByEmail_some {db : Store} {email : String} {u : User}
    (h : findByEmailWithPassword db email = some u) :
    u ∈ db ∧ u.email = normalizeEmail email ∧ u.isActive = true := by
  unfold findByEmailWithPassword at h
  have h1 := List.mem_of_find?_eq_some h
  have h2 := List.find?_some h
  simp only [Bool.and_eq_true, beq_iff_eq] at h2
  exact ⟨h1, h2.1, h2.2⟩

end User

namespace AuthService

theorem findOrCreateAdmin_ok_inv {env : Env} {db db0 : Store} {adminPassword : String}
    {user : User}
    (h : findOrCreateAdmin env db env.ADMIN_EMAIL adminPassword = (Except.ok user, db0)) :
    user ∈ db0 ∧ user.email = User.normalizeEmail env.ADMIN_EMAIL ∧ user.isActive = true ∧
    ((User.findByEmailWithPassword db env.ADMIN_EMAIL = some user ∧ db0 = db) ∨
     (User.findByEmailWithPassword db env.ADMIN_EMAIL = none ∧
      user = User.created db env.ADMIN_EMAIL adminPassword "admin" ∧
      db0 = db ++ [user])) := by
  unfold findOrCreateAdmin at h
  cases hf : User.findByEmailWithPassword db env.ADMIN_EMAIL with
  | some u =>
    rw [hf] at h
    simp only [Prod.mk.injEq, Except.ok.injEq] at h
    obtain ⟨h1, h2⟩ := h
    subst h1 h2
    obtain ⟨hm, he, ha⟩ := User.findByEmail_some hf
    exact ⟨hm, he, ha, Or.inl ⟨rfl, rfl⟩⟩
  | none =>
    rw [hf] at h
    simp only at h
    cases hc : User.create env db env.ADMIN_EMAIL adminPassword "admin" with
    | error e => simp [hc] at h
    | ok db1 =>
      rw [hc] at h
      simp only at h
      obtain ⟨hdb1, _⟩ := User.create_ok_inv hc
      have hfound := @User.findByEmail_append_created db env.ADMIN_EMAIL adminPassword "admin" hf
      rw [hdb1, hfound] at h
      simp only [Prod.mk.injEq, Except.ok.injEq] at h
      obtain ⟨h1, h2⟩ := h
      subst h1
      obtain ⟨hm, he, ha⟩ := User.findByEmail_some hfound
      refine ⟨?_, he, ha, Or.inr ⟨rfl, rfl, h2.symm⟩⟩
      rw [← h2]
      exact hm

theorem issueSession_eq (env : Env) (db : Store) (now : Nat) (user : User) :
    issueSession env db now user =
      match JWTService.generateTokenPair env now user with
      | Except.error e => (Except.error e, db)
      | Except.ok tokens =>
        (Except.ok { user := User.toJSON (User.loggedIn user tokens.refreshToken now),
                     accessToken := tokens.accessToken, refreshToken := tokens.refreshToken },
         User.save
           (User.save db { user with refreshTokens :=
              user.refreshTokens ++ [{ token := tokens.refreshToken, createdAt := now }] })
           (User.loggedIn user tokens.refreshToken now)) := by
  unfold issueSession
  cases JWTService.generateTokenPair env now user with
  | error e => rfl
  | ok tokens => rfl

/-- A successful `login` passed every check. -/
theorem login_ok_inv {env : Env} {db db1 : Store} {now : Nat} {email password : String}
    {res : AuthResult}
    (h : login env db now email password = (Except.ok res, db1)) :
    email = env.ADMIN_EMAIL ∧
    ∃ adminPassword user db0 tokens,
      env.ADMIN_PASSWORD = some adminPassword ∧
      findOrCreateAdmin env db env.ADMIN_EMAIL adminPassword = (Except.ok user, db0) ∧
      User.comparePassword user password = true ∧
      JWTService.generateTokenPair env now user = Except.ok tokens ∧
      res = { user := User.toJSON (User.loggedIn user tokens.refreshToken now),
              accessToken := tokens.accessToken, refreshToken := tokens.refreshToken } ∧
      db1 = User.save
        (User.save db0 { user with refreshTokens :=
            user.refreshTokens ++ [{ token := tokens.refreshToken, createdAt := now }] })
        (User.loggedIn user tokens.refreshToken now) := by
  unfold login at h
  by_cases he : email = env.ADMIN_EMAIL
  · subst he
    refine ⟨rfl, ?_⟩
    simp only [ne_eq, not_true_eq_false, if_false] at h
    cases hp : env.ADMIN_PASSWORD with
    | none => simp [hp] at h
    | some adminPassword =>
      rw [hp] at h
      simp only at h
      cases hfc : findOrCreateAdmin env db env.ADMIN_EMAIL adminPassword with
      | mk r db0 =>
        rw [hfc] at h
        cases r with
        | error e => simp at h
        | ok user =>
          simp only [checkPassword] at h
          by_cases hcmp : User.comparePassword user password = true
          · simp only [hcmp, Bool.not_true, Bool.false_eq_true, if_false] at h
            rw [issueSession_eq] at h
            cases hg : JWTService.generateTokenPair env now user with
            | error e => simp [hg] at h
            | ok tokens =>
              rw [hg] at h
              simp only [Prod.mk.injEq, Except.ok.injEq] at h
              exact ⟨adminPassword, user, db0, tokens, rfl, hfc, hcmp, hg, h.1.symm, h.2.symm⟩
          · simp [hcmp] at h
  · simp [he] at h

end AuthService

namespace JWTService

/-- The refresh token issued for `user` verifies until its expiry. -/
theorem verifyRefreshToken_issued {env : Env} {key : String} (user : User) (sec now2 : Nat)
    (hk : env.JWT_REFRESH_SECRET = some key)
    (hlt : now2 / 1000 < sec + AUTH_CONFIG.JWT.REFRESH_TOKEN_EXPIRY) :
    verifyRefreshToken env now2
        (Jwt.signed (issuedPayload user TOKEN_TYPES.REFRESH sec
          AUTH_CONFIG.JWT.REFRESH_TOKEN_EXPIRY) key) =
      Except.ok (issuedPayload user TOKEN_TYPES.REFRESH sec
        AUTH_CONFIG.JWT.REFRESH_TOKEN_EXPIRY) := by
  have hge : ¬ now2 / 1000 ≥ sec + AUTH_CONFIG.JWT.REFRESH_TOKEN_EXPIRY := by omega
  simp [verifyRefreshToken, jwt.verify, hk, issuedPayload, JsObject.getProp, List.lookup, hge]

/-- The access token issued for `user` verifies until its expiry. -/
theorem verifyAccessToken_issued {env : Env} {key : String} (user : User) (sec now2 : Nat)
    (hk : env.JWT_SECRET = some key)
    (hlt : now2 / 1000 < sec + AUTH_CONFIG.JWT.ACCESS_TOKEN_EXPIRY) :
    verifyAccessToken env now2
        (Jwt.signed (issuedPayload user TOKEN_TYPES.ACCESS sec
          AUTH_CONFIG.JWT.ACCESS_TOKEN_EXPIRY) key) =
      Except.ok (issuedPayload user TOKEN_TYPES.ACCESS sec
        AUTH_CONFIG.JWT.ACCESS_TOKEN_EXPIRY) := by
  have hge : ¬ now2 / 1000 ≥ sec + AUTH_CONFIG.JWT.ACCESS_TOKEN_EXPIRY := by omega
  simp [verifyAccessToken, jwt.verify, hk, issuedPayload, JsObject.getProp, List.lookup, hge]

end JWTService

namespace AuthService

theorem findOrCreateAdmin_uniqueIds {env : Env} {db db0 : Store} {adminPassword : String}
    {user : User} (hwf : Store.uniqueIds db)
    (h : findOrCreateAdmin env db env.ADMIN_EMAIL adminPassword = (Except.ok user, db0)) :
    Store.uniqueIds db0 := by
  obtain ⟨_, _, _, hcase⟩ := findOrCreateAdmin_ok_inv h
  rcases hcase with ⟨_, hdb⟩ | ⟨_, hu, hdb⟩
  · rw [hdb]; exact hwf
  · rw [hdb]
    apply User.uniqueIds_append_fresh hwf
    rw [hu]
    rfl

/-- The session a successful `login` leaves behind, and its use for rotation. -/
theorem login_session {env : Env} {db db1 : Store} {now : Nat} {email password : String}
    {res : AuthResult} (hwf : Store.uniqueIds db)
    (h : login env db now email password = (Except.ok res, db1)) :
    ∃ adminPassword user db0,
      env.ADMIN_PASSWORD = some adminPassword ∧
      findOrCreateAdmin env db env.ADMIN_EMAIL adminPassword = (Except.ok user, db0) ∧
      JWTService.generateTokenPair env now user =
        Except.ok { accessToken := res.accessToken, refreshToken := res.refreshToken } ∧
      res.user = User.toJSON (User.loggedIn user res.refreshToken now) ∧
      User.findById db1 (some user._id) = some (User.loggedIn user res.refreshToken now) ∧
      Store.uniqueIds db1 ∧
      ∀ now2, now2 / 1000 < now / 1000 + AUTH_CONFIG.JWT.REFRESH_TOKEN_EXPIRY →
        ∃ res2 db2, refreshToken env db1 now2 res.refreshToken = (Except.ok res2, db2) := by
  obtain ⟨_, adminPassword, user, db0, tokens, hpw, hfc, _, hg, hres, hdb⟩ := login_ok_inv h
  obtain ⟨hmem, _, hact, _⟩ := findOrCreateAdmin_ok_inv hfc
  have hwf0 := findOrCreateAdmin_uniqueIds hwf hfc
  have hf0 := User.findById_of_mem hwf0 hmem
  have hrt : res.refreshToken = tokens.refreshToken := by rw [hres]
  have hat : res.accessToken = tokens.accessToken := by rw [hres]
  have hf1 : User.findById db1 (some user._id) =
      some (User.loggedIn user res.refreshToken now) := by
    rw [hdb, hrt]
    exact User.findById_save_self
      (User.findById_save_self hf0
        (v := { user with refreshTokens :=
            user.refreshTokens ++ [{ token := tokens.refreshToken, createdAt := now }] }) rfl)
      rfl
  refine ⟨adminPassword, user, db0, hpw, hfc, ?_, ?_, hf1, ?_, ?_⟩
  · rw [hg, hrt, hat]
  · rw [hres]
  · rw [hdb]
    exact User.uniqueIds_save _ (User.uniqueIds_save _ hwf0)
  · intro now2 hlt
    obtain ⟨k1, k2, hk1, hk2, htok⟩ := (JWTService.generateTokenPair_ok_iff env now user tokens).mp hg
    have hT : res.refreshToken = Jwt.signed (JWTService.issuedPayload user TOKEN_TYPES.REFRESH
        (now / 1000) AUTH_CONFIG.JWT.REFRESH_TOKEN_EXPIRY) k2 := by rw [hrt, htok]
    have hv := JWTService.verifyRefreshToken_issued user (now / 1000) now2 hk2 hlt
    rw [← hT] at hv
    have hu : referencedIdentity db1 (JWTService.issuedPayload user TOKEN_TYPES.REFRESH
        (now / 1000) AUTH_CONFIG.JWT.REFRESH_TOKEN_EXPIRY) =
        some (User.loggedIn user res.refreshToken now) := by
      simp only [referencedIdentity, JWTService.issuedPayload, JsObject.getProp, List.lookup,
        User.castObjectId]
      simpa using hf1
    have ha : (User.loggedIn user res.refreshToken now).isActive = true := hact
    rw [refreshToken_of_loaded hv hu ha]
    have hany : (User.loggedIn user res.refreshToken now).refreshTokens.any
        (fun token => token.token = res.refreshToken) = true := by
      simp [User.loggedIn]
    obtain ⟨tokens2, hg2⟩ := JWTService.generateTokenPair_ok_of_ok hg now2
      (User.loggedIn user res.refreshToken now)
    simp only [hany, if_true, hg2]
    exact ⟨_, _, rfl⟩

theorem login_wrong_email (env : Env) (db : Store) (now : Nat) (email password : String)
    (h : email ≠ env.ADMIN_EMAIL) :
    login env db now email password =
      (Except.error AUTH_MESSAGES.ERROR.INVALID_CREDENTIALS, db) := by
  simp [login, h]

theorem login_of_loaded {env : Env} {db db0 : Store} {adminPassword : String} {user : User}
    (now : Nat) (password : String)
    (hpw : env.ADMIN_PASSWORD = some adminPassword)
    (hfc : findOrCreateAdmin env db env.ADMIN_EMAIL adminPassword = (Except.ok user, db0)) :
    login env db now env.ADMIN_EMAIL password = checkPassword env db0 now user password := by
  simp [login, hpw, hfc]

theorem findOrCreateAdmin_of_free {env : Env} {db : Store} {adminPassword : String}
    (hfree : ∀ u ∈ db, u.email ≠ User.normalizeEmail env.ADMIN_EMAIL)
    (hne : User.normalizeEmail env.ADMIN_EMAIL ≠ "")
    (hpat : env.emailPattern (User.normalizeEmail env.ADMIN_EMAIL) = true)
    (hlen : 6 ≤ adminPassword.length) :
    findOrCreateAdmin env db env.ADMIN_EMAIL adminPassword =
      (Except.ok (User.created db env.ADMIN_EMAIL adminPassword "admin"),
        db ++ [User.created db env.ADMIN_EMAIL adminPassword "admin"]) := by
  have hnone := User.findByEmail_none_of_free hfree
  unfold findOrCreateAdmin
  rw [hnone]
  simp only
  rw [User.create_ok_of_valid hne hpat hlen hfree]
  simp only
  rw [User.findByEmail_append_created hnone]

end AuthService

namespace User

theorem findById_append_created (db : Store) (email password role : String) :
    findById (db ++ [created db email password role]) (some (freshId db)) =
      some (created db email password role) := by
  unfold findById
  simp only
  rw [List.find?_append]
  have hnone : List.find? (fun u => u._id == freshId db) db = none := by
    rw [List.find?_eq_none]
    intro u hu
    have := lt_freshId hu
    simp
    omega
  rw [hnone]
  simp [created]

theorem create_ok_valid {env : Env} {db db1 : Store} {email password role : String}
    (h : create env db email password role = Except.ok db1) :
    normalizeEmail email ≠ "" ∧ env.emailPattern (normalizeEmail email) = true ∧
      6 ≤ password.length := by
  unfold create at h
  simp only at h
  split at h
  · simp at h
  · rename_i hv
    simp only [not_or, Bool.not_eq_true', Bool.not_eq_false, not_lt] at hv
    obtain ⟨h1, h2, h3, _⟩ := hv
    refine ⟨h1, ?_, h3⟩
    simpa using h2

theorem free_of_save {db : Store} {u v : User} {email : String}
    (hf : findById db (some v._id) = some u) (he : v.email = u.email)
    (hfree : ∀ d ∈ db, d.email ≠ email) : ∀ d ∈ save db v, d.email ≠ email := by
  intro d hd hc
  have hmem : d.email ∈ (save db v).map (fun d => d.email) := List.mem_map.mpr ⟨d, hd, rfl⟩
  rw [save_emails hf he] at hmem
  obtain ⟨d2, hd2, he2⟩ := List.mem_map.mp hmem
  exact hfree d2 hd2 (he2.trans hc)

end User

namespace AuthService

theorem findOrCreateAdmin_created {env : Env} {db db0 : Store} {adminPassword : String}
    {user : User}
    (h : findOrCreateAdmin env db env.ADMIN_EMAIL adminPassword = (Except.ok user, db0))
    (hnone : User.findByEmailWithPassword db env.ADMIN_EMAIL = none) :
    ∃ db1, User.create env db env.ADMIN_EMAIL adminPassword "admin" = Except.ok db1 := by
  unfold findOrCreateAdmin at h
  rw [hnone] at h
  simp only at h
  cases hc : User.create env db env.ADMIN_EMAIL adminPassword "admin" with
  | error e => simp [hc] at h
  | ok db1 => exact ⟨db1, rfl⟩

/-- Saving a document with unchanged credentials does not change whose password
`login` compares against. -/
theorem findOrCreateAdmin_save {env : Env} {db db0 : Store} {adminPassword : String}
    {user u v : User}
    (hf : User.findById db (some v._id) = some u)
    (hc : User.credentials v = User.credentials u)
    (h : findOrCreateAdmin env db env.ADMIN_EMAIL adminPassword = (Except.ok user, db0)) :
    ∃ user1 db01,
      findOrCreateAdmin env (User.save db v) env.ADMIN_EMAIL adminPassword =
        (Except.ok user1, db01) ∧ user1.password = user.password := by
  obtain ⟨_, _, _, hcase⟩ := findOrCreateAdmin_ok_inv h
  have hmap := User.findByEmail_save_credentials env.ADMIN_EMAIL hf hc
  rcases hcase with ⟨hfound, _⟩ | ⟨hnone, hu, _⟩
  · rw [hfound] at hmap
    cases hf1 : User.findByEmailWithPassword (User.save db v) env.ADMIN_EMAIL with
    | none => rw [hf1] at hmap; simp at hmap
    | some user1 =>
      rw [hf1] at hmap
      simp only [Option.map_some', Option.some.injEq, User.credentials, Prod.mk.injEq] at hmap
      refine ⟨user1, User.save db v, ?_, hmap.2.2.1⟩
      simp [findOrCreateAdmin, hf1]
  · obtain ⟨db1, hcr⟩ := findOrCreateAdmin_created h hnone
    obtain ⟨hne, hpat, hlen⟩ := User.create_ok_valid hcr
    obtain ⟨_, hfree⟩ := User.create_ok_inv hcr
    have he : v.email = u.email := by
      simp only [User.credentials, Prod.mk.injEq] at hc
      exact hc.2.1
    have hfree1 := User.free_of_save hf he hfree
    refine ⟨_, _, findOrCreateAdmin_of_free hfree1 hne hpat hlen, ?_⟩
    rw [hu]
    rfl

theorem logoutAllDevices_of_found {db : Store} {id : Nat} {u : User}
    (hf : User.findById db (some id) = some u) :
    logoutAllDevices db (some id) =
      (Except.ok (), User.save db { u with refreshTokens := [] }) := by
  simp [logoutAllDevices, hf, User.removeAllRefreshTokens]

end AuthService

/-! ## Lemmas on plain objects and token types -/

theorem getProp_setProp_same (o : JsObject) (k : String) (v : JsVal) :
    JsObject.getProp (JsObject.setProp o k v) k = some v := by
  induction o with
  | nil => simp [JsObject.setProp, JsObject.getProp, List.lookup]
  | cons p rest ih =>
    obtain ⟨k0, v0⟩ := p
    by_cases h : k0 = k
    · simp [JsObject.setProp, JsObject.getProp, List.lookup, h]
    · have hb : (k == k0) = false := beq_eq_false_iff_ne.mpr (fun hc => h hc.symm)
      simp only [JsObject.setProp, h, if_false, JsObject.getProp, List.lookup, hb]
      exact ih

theorem getProp_setProp_other (o : JsObject) {k k2 : String} (v : JsVal) (hne : k ≠ k2) :
    JsObject.getProp (JsObject.setProp o k2 v) k = JsObject.getProp o k := by
  induction o with
  | nil =>
    have hb : (k == k2) = false := beq_eq_false_iff_ne.mpr hne
    simp [JsObject.setProp, JsObject.getProp, List.lookup, hb]
  | cons p rest ih =>
    obtain ⟨k0, v0⟩ := p
    by_cases h : k0 = k2
    · subst h
      have hb : (k == k0) = false := beq_eq_false_iff_ne.mpr hne
      simp [JsObject.setProp, JsObject.getProp, List.lookup, hb]
    · simp only [JsObject.setProp, h, if_false, JsObject.getProp, List.lookup]
      cases hk : (k == k0)
      · exact ih
      · rfl

namespace JWTService

/-- A token made by `jwt.sign` carries the `type` of the payload it was given. -/
theorem sign_type {payload : JsObject} {secret : Option String} {ttl sec : Nat} {token : Jwt}
    (h : jwt.sign payload secret ttl sec = some token) :
    ∃ p key, token = Jwt.signed p key ∧ secret = some key ∧
      JsObject.getProp p "type" = JsObject.getProp payload "type" := by
  unfold jwt.sign at h
  cases secret with
  | none => simp at h
  | some key =>
    simp only at h
    split at h
    · simp at h
    · split at h
      · simp at h
      · simp only [Option.some.injEq] at h
        refine ⟨_, key, h.symm, rfl, ?_⟩
        rw [getProp_setProp_other _ _ (by decide), getProp_setProp_other _ _ (by decide)]

theorem generateAccessToken_type {env : Env} {now : Nat} {payload : JsObject} {token : Jwt}
    (h : generateAccessToken env now payload = Except.ok token) :
    ∃ p key, token = Jwt.signed p key ∧ env.JWT_SECRET = some key ∧
      JsObject.getProp p "type" = some (JsVal.str TOKEN_TYPES.ACCESS) := by
  unfold generateAccessToken at h
  cases hs : jwt.sign (JsObject.setProp payload "type" (JsVal.str TOKEN_TYPES.ACCESS))
      env.JWT_SECRET AUTH_CONFIG.JWT.ACCESS_TOKEN_EXPIRY (now / 1000) with
  | none => simp [hs] at h
  | some t =>
    rw [hs] at h
    simp only [Except.ok.injEq] at h
    subst h
    obtain ⟨p, key, h1, h2, h3⟩ := sign_type hs
    exact ⟨p, key, h1, h2, by rw [h3, getProp_setProp_same]⟩

theorem generateRefreshToken_type {env : Env} {now : Nat} {payload : JsObject} {token : Jwt}
    (h : generateRefreshToken env now payload = Except.ok token) :
    ∃ p key, token = Jwt.signed p key ∧ env.JWT_REFRESH_SECRET = some key ∧
      JsObject.getProp p "type" = some (JsVal.str TOKEN_TYPES.REFRESH) := by
  unfold generateRefreshToken at h
  cases hs : jwt.sign (JsObject.setProp payload "type" (JsVal.str TOKEN_TYPES.REFRESH))
      env.JWT_REFRESH_SECRET AUTH_CONFIG.JWT.REFRESH_TOKEN_EXPIRY (now / 1000) with
  | none => simp [hs] at h
  | some t =>
    rw [hs] at h
    simp only [Except.ok.injEq] at h
    subst h
    obtain ⟨p, key, h1, h2, h3⟩ := sign_type hs
    exact ⟨p, key, h1, h2, by rw [h3, getProp_setProp_same]⟩

theorem verifyAccessToken_ok_signed {env : Env} {now : Nat} {token : Jwt} {decoded : JsObject}
    (h : verifyAccessToken env now token = Except.ok decoded) :
    ∃ key, token = Jwt.signed decoded key ∧ env.JWT_SECRET = some key ∧
      JsObject.getProp decoded "type" = some (JsVal.str TOKEN_TYPES.ACCESS) := by
  unfold verifyAccessToken at h
  cases hv : jwt.verify token env.JWT_SECRET (now / 1000) with
  | error e => rw [hv] at h; cases e <;> simp at h
  | ok d =>
    rw [hv] at h
    obtain ⟨key, hk, hs⟩ := verify_ok_signed hv
    by_cases ht : JsObject.getProp d "type" = some (JsVal.str TOKEN_TYPES.ACCESS)
    · simp [ht] at h
      subst h
      exact ⟨key, hk, hs, ht⟩
    · simp [ht] at h

end JWTService

namespace JWTService

theorem verify_expired {payload : JsObject} {key : String} {sec e : Nat}
    (hnbf : JsObject.getProp payload "nbf" = none)
    (hexp : JsObject.getProp payload "exp" = some (JsVal.num e)) (hel : e ≤ sec) :
    jwt.verify (Jwt.signed payload key) (some key) sec =
      Except.error JwtError.TokenExpiredError := by
  simp [jwt.verify, hnbf, hexp, hel]

theorem verify_bad_signature {payload : JsObject} {key : String} {secret : Option String}
    {sec : Nat} (h : secret ≠ some key) :
    jwt.verify (Jwt.signed payload key) secret sec =
      Except.error JwtError.JsonWebTokenError := by
  unfold jwt.verify
  cases secret with
  | none => rfl
  | some s =>
    have hne : key ≠ s := by
      intro hc
      apply h
      rw [hc]
    simp [hne]

end JWTService

namespace Middleware

theorem authenticate_of_token {env : Env} {decode : String → Jwt} {db : Store} {now : Nat}
    {authHeader : Option String} {token : String}
    (hx : JWTService.extractTokenFromHeader authHeader = some token) (hne : token ≠ "") :
    authenticate env decode db now authHeader =
      match JWTService.verifyAccessToken env now (decode token) with
      | Except.error e => Gate.rejected (authenticateCatch e)
      | Except.ok decoded =>
        match User.castObjectId (JsObject.getProp decoded "userId") with
        | Except.error e => Gate.rejected (authenticateCatch e)
        | Except.ok id =>
          match User.findById db id with
          | none =>
            Gate.rejected
              { status := 401, success := false, error := AUTH_MESSAGES.ERROR.UNAUTHORIZED }
          | some user =>
            if !user.isActive then
              Gate.rejected
                { status := 401, success := false, error := AUTH_MESSAGES.ERROR.UNAUTHORIZED }
            else Gate.next (user, token) := by
  unfold authenticate
  rw [hx]
  simp only [hne, if_false]

end Middleware

namespace User

theorem lookup_deleteKey (ret : List (String × DocValue)) (k d : String) :
    List.lookup k (deleteKey ret d) = if k = d then none else List.lookup k ret := by
  induction ret with
  | nil => simp [deleteKey]
  | cons p rest ih =>
    obtain ⟨k0, v0⟩ := p
    unfold deleteKey at ih ⊢
    by_cases h0 : k0 = d
    · subst h0
      simp only [ne_eq, not_true_eq_false, decide_False, Bool.false_eq_true, not_false_eq_true,
        List.filter_cons_of_neg]
      rw [ih]
      by_cases hk : k = k0
      · simp [hk]
      · have hb : (k == k0) = false := beq_eq_false_iff_ne.mpr hk
        simp [hk, List.lookup, hb]
    · have hd : decide (k0 ≠ d) = true := by simpa using h0
      rw [List.filter_cons_of_pos (by simpa using h0)]
      simp only [List.lookup]
      cases hb : (k == k0)
      · exact ih
      · have hk : k = k0 := by simpa using hb
        subst hk
        simp [h0]

theorem lookup_transform (ret : List (String × DocValue)) (k : String) :
    List.lookup k (transform ret) =
      if k = "password" ∨ k = "refreshTokens" ∨ k = "__v" then none else List.lookup k ret := by
  unfold transform
  rw [lookup_deleteKey, lookup_deleteKey, lookup_deleteKey]
  by_cases h1 : k = "__v"
  · simp [h1]
  · by_cases h2 : k = "refreshTokens"
    · simp [h2]
    · by_cases h3 : k = "password"
      · simp [h3]
      · simp [h1, h2, h3]

end User

/-- When `refreshToken(T0)` succeeds and the token it returns differs from `T0`,
every later `refreshToken(T0)` on the resulting store fails and leaves the store
as it is: with `Invalid or expired token` whenever `T0` still verifies, and
otherwise with `Refresh token expired`. -/
theorem refreshToken_superseded_rejected (env : Env) (db db1 : Store) (now : Nat) (T0 : Jwt)
    (res : AuthResult)
    (hrot : AuthService.refreshToken env db now T0 = (Except.ok res, db1))
    (hnew : res.refreshToken ≠ T0) :
    (∀ now2 decoded, JWTService.verifyRefreshToken env now2 T0 = Except.ok decoded →
        AuthService.refreshToken env db1 now2 T0 =
          (Except.error AUTH_MESSAGES.ERROR.INVALID_TOKEN, db1)) ∧
    (∀ now2, now ≤ now2 →
        AuthService.refreshToken env db1 now2 T0 =
            (Except.error AUTH_MESSAGES.ERROR.INVALID_TOKEN, db1) ∨
        AuthService.refreshToken env db1 now2 T0 =
            (Except.error "Refresh token expired", db1)) := by
  obtain ⟨decoded, user, tokens, hv, hu, ha, _, _, _, hr, _, hdb⟩ :=
    AuthService.refreshToken_ok_inv hrot
  have hfirst : ∀ now2 decoded2, JWTService.verifyRefreshToken env now2 T0 = Except.ok decoded2 →
      AuthService.refreshToken env db1 now2 T0 =
        (Except.error AUTH_MESSAGES.ERROR.INVALID_TOKEN, db1) := by
    intro now2 decoded2 hv2
    obtain ⟨k, hk, _, _⟩ := JWTService.verifyRefreshToken_ok_signed hv
    obtain ⟨k2, hk2, _, _⟩ := JWTService.verifyRefreshToken_ok_signed hv2
    have hdd : decoded2 = decoded := by
      rw [hk] at hk2
      injection hk2 with h1 _
      exact h1.symm
    subst hdd
    have hu2 := AuthService.referencedIdentity_save
      (AuthService.referencedIdentity_save hu
        (v := { user with refreshTokens := user.refreshTokens.filter (fun r => r.token ≠ T0) }) rfl)
      (v := { user with refreshTokens :=
                user.refreshTokens.filter (fun r => r.token ≠ T0)
                  ++ [{ token := tokens.refreshToken, createdAt := now }] }) rfl
    rw [← hdb] at hu2
    rw [AuthService.refreshToken_of_loaded hv2 hu2 ha]
    have hne : tokens.refreshToken ≠ T0 := by rw [← hr]; exact hnew
    have hany : (user.refreshTokens.filter (fun r => r.token ≠ T0)
        ++ [({ token := tokens.refreshToken, createdAt := now } : RefreshTokenRecord)]).any
          (fun token => token.token = T0) = false := by
      simp [List.any_append, hne]
    simp only [hany]
    simp
  refine ⟨hfirst, ?_⟩
  intro now2 hle
  rcases JWTService.verifyRefreshToken_later hv hle with h2 | h2
  · left; exact hfirst now2 decoded h2
  · right
    simp [AuthService.refreshToken, h2]

theorem refreshToken_superseded_rejected_example :
    demoRotation = (Except.ok demoRotationResult, demoRotation.2) ∧
    demoRotationResult.refreshToken ≠ demoRefreshToken ∧
    (∀ now2 decoded,
      JWTService.verifyRefreshToken demoEnv now2 demoRefreshToken = Except.ok decoded →
        AuthService.refreshToken demoEnv demoRotation.2 now2 demoRefreshToken =
          (Except.error AUTH_MESSAGES.ERROR.INVALID_TOKEN, demoRotation.2)) :=
  ⟨rfl, by decide,
    (refreshToken_superseded_rejected demoEnv [demoAdmin] demoRotation.2 6000 demoRefreshToken
      demoRotationResult rfl (by decide)).1⟩

/-- The refresh token that a successful `refreshToken(T0)` returns is the one signed
for the loaded identity in the second of the call; it is `T0` itself exactly when
`T0` is that token. -/
theorem refreshToken_returned_token {env : Env} {db db1 : Store} {now : Nat} {T0 : Jwt}
    {res : AuthResult}
    (h : AuthService.refreshToken env db now T0 = (Except.ok res, db1)) :
    ∃ user key, User.findById db (some user._id) = some user ∧
      env.JWT_REFRESH_SECRET = some key ∧
      res.refreshToken = Jwt.signed (JWTService.issuedPayload user TOKEN_TYPES.REFRESH
        (now / 1000) AUTH_CONFIG.JWT.REFRESH_TOKEN_EXPIRY) key ∧
      (res.refreshToken = T0 ↔
        T0 = Jwt.signed (JWTService.issuedPayload user TOKEN_TYPES.REFRESH
          (now / 1000) AUTH_CONFIG.JWT.REFRESH_TOKEN_EXPIRY) key) := by
  obtain ⟨decoded, user, tokens, _, hu, _, _, hg, _, hr, _, _⟩ :=
    AuthService.refreshToken_ok_inv h
  obtain ⟨_, hf⟩ := AuthService.referencedIdentity_some_id hu
  obtain ⟨k1, k2, _, hk2, htok⟩ := (JWTService.generateTokenPair_ok_iff env now user tokens).mp hg
  have hres : res.refreshToken = Jwt.signed (JWTService.issuedPayload user TOKEN_TYPES.REFRESH
      (now / 1000) AUTH_CONFIG.JWT.REFRESH_TOKEN_EXPIRY) k2 := by rw [hr, htok]
  refine ⟨user, k2, hf, hk2, hres, ?_⟩
  rw [hres]
  exact ⟨fun h => h.symm, fun h => h.symm⟩

/-- A successful `refreshToken(T0)` in a second other than the one in `T0`'s `iat`
returns a token that differs from `T0`. -/
theorem refreshToken_returned_token_ne {env : Env} {db db1 : Store} {now : Nat}
    {payload : JsObject} {key : String} {res : AuthResult}
    (h : AuthService.refreshToken env db now (Jwt.signed payload key) = (Except.ok res, db1))
    (hiat : JsObject.getProp payload "iat" ≠ some (JsVal.num (now / 1000))) :
    res.refreshToken ≠ Jwt.signed payload key := by
  obtain ⟨user, k, _, _, hres, _⟩ := refreshToken_returned_token h
  intro hc
  rw [hres] at hc
  injection hc with hp _
  apply hiat
  rw [← hp]
  rfl

/-- The replay in general: when the presented token is the refresh token signed
for an active identity in the very second of the call and the identity holds a
record of it, `refreshToken` succeeds, returns the presented token itself, and
succeeds again on the resulting store. -/
theorem refreshToken_same_second_replay {env : Env} {db : Store} {now : Nat} {user : User}
    {k1 k2 : String}
    (hk1 : env.JWT_SECRET = some k1) (hk2 : env.JWT_REFRESH_SECRET = some k2)
    (hf : User.findById db (some user._id) = some user) (ha : user.isActive = true)
    (hrec : ∃ r ∈ user.refreshTokens, r.token =
      Jwt.signed (JWTService.issuedPayload user TOKEN_TYPES.REFRESH (now / 1000)
        AUTH_CONFIG.JWT.REFRESH_TOKEN_EXPIRY) k2) :
    ∃ res db1 res2 db2,
      AuthService.refreshToken env db now
          (Jwt.signed (JWTService.issuedPayload user TOKEN_TYPES.REFRESH (now / 1000)
            AUTH_CONFIG.JWT.REFRESH_TOKEN_EXPIRY) k2) = (Except.ok res, db1) ∧
      res.refreshToken =
        Jwt.signed (JWTService.issuedPayload user TOKEN_TYPES.REFRESH (now / 1000)
          AUTH_CONFIG.JWT.REFRESH_TOKEN_EXPIRY) k2 ∧
      AuthService.refreshToken env db1 now
          (Jwt.signed (JWTService.issuedPayload user TOKEN_TYPES.REFRESH (now / 1000)
            AUTH_CONFIG.JWT.REFRESH_TOKEN_EXPIRY) k2) = (Except.ok res2, db2) := by
  have hv := JWTService.verifyRefreshToken_issued user (now / 1000) now hk2
    (by simp [AUTH_CONFIG.JWT.REFRESH_TOKEN_EXPIRY])
  have hu : AuthService.referencedIdentity db (JWTService.issuedPayload user TOKEN_TYPES.REFRESH
      (now / 1000) AUTH_CONFIG.JWT.REFRESH_TOKEN_EXPIRY) = some user := by
    simp only [AuthService.referencedIdentity, JWTService.issuedPayload, JsObject.getProp,
      List.lookup, User.castObjectId]
    simpa using hf
  obtain ⟨r, hr, hrt⟩ := hrec
  have hany : user.refreshTokens.any (fun token => token.token =
      Jwt.signed (JWTService.issuedPayload user TOKEN_TYPES.REFRESH (now / 1000)
        AUTH_CONFIG.JWT.REFRESH_TOKEN_EXPIRY) k2) = true := by
    simp only [List.any_eq_true, decide_eq_true_eq]
    exact ⟨r, hr, hrt⟩
  have hg := (JWTService.generateTokenPair_ok_iff env now user _).mpr ⟨k1, k2, hk1, hk2, rfl⟩
  have h1 := AuthService.refreshToken_of_loaded hv hu ha
  simp only [hany, if_true, hg] at h1
  have hu2 := AuthService.referencedIdentity_save
    (AuthService.referencedIdentity_save hu
      (v := { user with refreshTokens := user.refreshTokens.filter (fun r => r.token ≠
          Jwt.signed (JWTService.issuedPayload user TOKEN_TYPES.REFRESH (now / 1000)
            AUTH_CONFIG.JWT.REFRESH_TOKEN_EXPIRY) k2) }) rfl)
    (v := { user with refreshTokens :=
              user.refreshTokens.filter (fun r => r.token ≠
                Jwt.signed (JWTService.issuedPayload user TOKEN_TYPES.REFRESH (now / 1000)
                  AUTH_CONFIG.JWT.REFRESH_TOKEN_EXPIRY) k2)
                ++ [{ token := Jwt.signed (JWTService.issuedPayload user TOKEN_TYPES.REFRESH
                        (now / 1000) AUTH_CONFIG.JWT.REFRESH_TOKEN_EXPIRY) k2,
                      createdAt := now }] }) rfl
  have h2 := AuthService.refreshToken_of_loaded hv hu2 ha
  obtain ⟨tokens2, hg2⟩ := JWTService.generateTokenPair_ok_of_ok hg now
    { user with refreshTokens :=
        user.refreshTokens.filter (fun r => r.token ≠
          Jwt.signed (JWTService.issuedPayload user TOKEN_TYPES.REFRESH (now / 1000)
            AUTH_CONFIG.JWT.REFRESH_TOKEN_EXPIRY) k2)
          ++ [{ token := Jwt.signed (JWTService.issuedPayload user TOKEN_TYPES.REFRESH
                  (now / 1000) AUTH_CONFIG.JWT.REFRESH_TOKEN_EXPIRY) k2,
                createdAt := now }] }
  simp only [List.any_append, List.any_cons, List.any_nil, decide_True, Bool.or_false,
    Bool.or_true, if_true, hg2] at h2
  exact ⟨_, _, _, _, h1, rfl, h2⟩

/-! ## Claims -/

/-- C1 (defect of the code): the claim requires that a refresh token is single
use. At this input it is not: the rotation of `demoRefreshToken` within the
second in which it was issued succeeds and returns that very token, the
identity keeps a record of it, and presenting it again on the resulting store
succeeds instead of failing with `Invalid or expired token`. -/
theorem C1_same_second_rotation_replays :
    ((AuthService.refreshToken demoEnv [demoAdmin] 5000 demoRefreshToken).1.toOption).map
        (fun r => r.refreshToken) = some demoRefreshToken ∧
    (User.findById (AuthService.refreshToken demoEnv [demoAdmin] 5000 demoRefreshToken).2
        (some 1)).map (fun u => u.refreshTokens.map (fun r => r.token)) =
      some [demoRefreshToken] ∧
    (∃ res2 db2,
      AuthService.refreshToken demoEnv
          (AuthService.refreshToken demoEnv [demoAdmin] 5000 demoRefreshToken).2 5000
          demoRefreshToken =
        (Except.ok res2, db2)) ∧
    (AuthService.refreshToken demoEnv
        (AuthService.refreshToken demoEnv [demoAdmin] 5000 demoRefreshToken).2 5000
        demoRefreshToken).1 ≠ Except.error AUTH_MESSAGES.ERROR.INVALID_TOKEN :=
  ⟨rfl, rfl, ⟨_, _, rfl⟩, by
    intro h
    have h2 := congrArg Except.toOption h
    revert h2
    decide⟩

/-- C2, as stated, fails: a token that verifies and has a matching record on an
active identity is still refused when no access-token key is configured. -/
theorem C2_refused_without_access_key :
    (∃ decoded user,
      JWTService.verifyRefreshToken demoEnvNoAccessKey 5000 demoRefreshToken = Except.ok decoded ∧
      AuthService.referencedIdentity [demoAdmin] decoded = some user ∧ user.isActive = true ∧
      ∃ r ∈ user.refreshTokens, r.token = demoRefreshToken) ∧
    AuthService.refreshToken demoEnvNoAccessKey [demoAdmin] 5000 demoRefreshToken =
      (Except.error "Failed to generate access token", [demoAdmin]) :=
  ⟨⟨_, demoAdmin, rfl, rfl, rfl, _, List.mem_singleton.mpr rfl, rfl⟩, rfl⟩

/-- C2 (amended): with the access-token key `JWT_SECRET` configured,
`refreshToken(T)` succeeds if and only if `verifyRefreshToken(T)` succeeds, the
identity the token refers to exists and is active, and one of its records holds
exactly `T`; a token that verifies on an active identity without a matching
record is rejected with `Invalid or expired token` and the store is unchanged;
and a token that verifies is signed with the refresh key, has type `refresh`
and an expiry that has not elapsed. -/
theorem C2_refresh_accepted_iff (env : Env) (db : Store) (now : Nat) (T : Jwt)
    (hkey : env.JWT_SECRET.isSome = true) :
    ((∃ res db1, AuthService.refreshToken env db now T = (Except.ok res, db1)) ↔
      ∃ decoded user,
        JWTService.verifyRefreshToken env now T = Except.ok decoded ∧
        AuthService.referencedIdentity db decoded = some user ∧ user.isActive = true ∧
        ∃ r ∈ user.refreshTokens, r.token = T) ∧
    (∀ decoded user,
        JWTService.verifyRefreshToken env now T = Except.ok decoded →
        AuthService.referencedIdentity db decoded = some user → user.isActive = true →
        (∀ r ∈ user.refreshTokens, r.token ≠ T) →
        AuthService.refreshToken env db now T =
          (Except.error AUTH_MESSAGES.ERROR.INVALID_TOKEN, db)) ∧
    (∀ decoded, JWTService.verifyRefreshToken env now T = Except.ok decoded →
        (∃ key, T = Jwt.signed decoded key ∧ env.JWT_REFRESH_SECRET = some key) ∧
        JsObject.getProp decoded "type" = some (JsVal.str TOKEN_TYPES.REFRESH) ∧
        ∀ e, JsObject.getProp decoded "exp" = some (JsVal.num e) → now / 1000 < e) := by
  refine ⟨⟨?_, ?_⟩, ?_, ?_⟩
  · rintro ⟨res, db1, h⟩
    obtain ⟨decoded, user, tokens, hv, hu, ha, hany, _⟩ := AuthService.refreshToken_ok_inv h
    refine ⟨decoded, user, hv, hu, ha, ?_⟩
    simpa [List.any_eq_true] using hany
  · rintro ⟨decoded, user, hv, hu, ha, r, hr, hrt⟩
    have hany : user.refreshTokens.any (fun token => token.token = T) = true := by
      simp only [List.any_eq_true, decide_eq_true_eq]
      exact ⟨r, hr, hrt⟩
    obtain ⟨k2, _, hk2, _⟩ := JWTService.verifyRefreshToken_ok_signed hv
    obtain ⟨k1, hk1⟩ := Option.isSome_iff_exists.mp hkey
    have hg := (JWTService.generateTokenPair_ok_iff env now user _).mpr ⟨k1, k2, hk1, hk2, rfl⟩
    rw [AuthService.refreshToken_of_loaded hv hu ha]
    simp only [hany, if_true, hg]
    exact ⟨_, _, rfl⟩
  · intro decoded user hv hu ha hnone
    have hany : user.refreshTokens.any (fun token => token.token = T) = false := by
      rw [List.any_eq_false]
      intro r hr
      simpa using hnone r hr
    rw [AuthService.refreshToken_of_loaded hv hu ha]
    simp [hany]
  · intro decoded hv
    obtain ⟨key, hk, hs, ht⟩ := JWTService.verifyRefreshToken_ok_signed hv
    exact ⟨⟨key, hk, hs⟩, ht, fun e he => JWTService.verifyRefreshToken_ok_unexpired hv he⟩

theorem C2_refresh_accepted_iff_witness :
    demoEnv.JWT_SECRET.isSome = true ∧
    ∃ res db1, AuthService.refreshToken demoEnv [demoAdmin] 6000 demoRefreshToken =
      (Except.ok res, db1) :=
  ⟨rfl, (C2_refresh_accepted_iff demoEnv [demoAdmin] 6000 demoRefreshToken rfl).1.mpr
    ⟨_, demoAdmin, rfl, rfl, rfl, _, List.mem_singleton.mpr rfl, rfl⟩⟩

/-- C3: when `refreshToken(T)` succeeds on an identity whose records are `R`, the
stored records of that identity become `R` without the records holding `T`, in
their original order, followed by one record holding the returned refresh token;
when `T` occurs once in `R` the number of records is unchanged; no other
identity is touched. -/
theorem C3_rotate_replaces_record (env : Env) (db db1 : Store) (now : Nat) (T : Jwt)
    (res : AuthResult)
    (h : AuthService.refreshToken env db now T = (Except.ok res, db1)) :
    ∃ user, User.findById db (some user._id) = some user ∧
      User.findById db1 (some user._id) =
        some { user with refreshTokens :=
                user.refreshTokens.filter (fun r => r.token ≠ T)
                  ++ [{ token := res.refreshToken, createdAt := now }] } ∧
      ((user.refreshTokens.filter (fun r => r.token = T)).length = 1 →
        (user.refreshTokens.filter (fun r => r.token ≠ T)
          ++ [({ token := res.refreshToken, createdAt := now } : RefreshTokenRecord)]).length =
          user.refreshTokens.length) ∧
      ∀ j, j ≠ user._id → User.findById db1 (some j) = User.findById db (some j) := by
  obtain ⟨decoded, user, tokens, hv, hu, ha, _, _, _, hr, _, hdb⟩ :=
    AuthService.refreshToken_ok_inv h
  obtain ⟨_, hf⟩ := AuthService.referencedIdentity_some_id hu
  refine ⟨user, hf, ?_, ?_, ?_⟩
  · rw [hdb, hr]
    exact User.findById_save_self
      (User.findById_save_self hf
        (v := { user with refreshTokens := user.refreshTokens.filter (fun r => r.token ≠ T) }) rfl)
      rfl
  · intro hone
    have hlen := List.length_eq_length_filter_add (l := user.refreshTokens)
      (fun r => decide (r.token = T))
    simp only [List.length_append, List.length_singleton]
    have heq : (user.refreshTokens.filter (fun r => r.token ≠ T)) =
        (user.refreshTokens.filter (fun r => !(decide (r.token = T)))) := by
      congr 1
      funext r
      simp
    rw [heq]
    omega
  · intro j hj
    rw [hdb]
    rw [User.findById_save_other (by simpa using hj), User.findById_save_other (by simpa using hj)]

theorem C3_rotate_replaces_record_witness :
    demoRotation = (Except.ok demoRotationResult, demoRotation.2) ∧
    ∃ user, User.findById [demoAdmin] (some user._id) = some user ∧
      User.findById demoRotation.2 (some user._id) =
        some { user with refreshTokens :=
                user.refreshTokens.filter (fun r => r.token ≠ demoRefreshToken)
                  ++ [{ token := demoRotationResult.refreshToken, createdAt := 6000 }] } ∧
      ((user.refreshTokens.filter (fun r => r.token = demoRefreshToken)).length = 1 →
        (user.refreshTokens.filter (fun r => r.token ≠ demoRefreshToken)
          ++ [({ token := demoRotationResult.refreshToken, createdAt := 6000 } :
                RefreshTokenRecord)]).length =
          user.refreshTokens.length) ∧
      ∀ j, j ≠ user._id →
        User.findById demoRotation.2 (some j) = User.findById [demoAdmin] (some j) :=
  ⟨rfl, C3_rotate_replaces_record demoEnv [demoAdmin] demoRotation.2 6000 demoRefreshToken
    demoRotationResult rfl⟩

/-- C4, as stated, fails: with no administrator password configured, the
administrator email with a wrong secret is answered `Authentication system
misconfigured`, while another email is answered `Invalid email or password`, and
the two 401 bodies differ; and with the password configured but the stored
administrator deactivated, the administrator email with a wrong secret is
answered with the duplicate-key error of the attempted re-creation. -/
theorem C4_misconfigured_guard_differs :
    (AuthService.login demoEnvNoAdminPassword [demoAdmin] 7000 "admin@x.com" "wrong1").1 =
        Except.error "Authentication system misconfigured" ∧
    (AuthService.login demoEnvNoAdminPassword [demoAdmin] 7000 "bob@x.com" "wrong1").1 =
        Except.error "Invalid email or password" ∧
    (AuthController.login demoEnvNoAdminPassword [demoAdmin] 7000 "admin@x.com" "wrong1").1 ≠
      (AuthController.login demoEnvNoAdminPassword [demoAdmin] 7000 "bob@x.com" "wrong1").1 ∧
    (AuthService.login demoEnv [demoAdminInactive] 7000 "admin@x.com" "wrong1").1 =
        Except.error "E11000 duplicate key error" :=
  ⟨rfl, rfl, by decide, rfl⟩

/-- C4 (amended): when the administrator password is configured and the
administrator identity `user` is found or can be created, every login with an
email other than the configured one, and every login with the configured email
and a secret that does not match `user`, fails with `Invalid email or password`;
the response of `AuthController.login` is the same 401 body in both cases. -/
theorem C4_invalid_credentials_uniform (env : Env) (db db0 : Store) (now : Nat)
    (adminPassword : String) (user : User)
    (hpw : env.ADMIN_PASSWORD = some adminPassword)
    (hload : AuthService.findOrCreateAdmin env db env.ADMIN_EMAIL adminPassword =
      (Except.ok user, db0)) :
    (∀ email password, email ≠ env.ADMIN_EMAIL →
        (AuthService.login env db now email password).1 =
          Except.error AUTH_MESSAGES.ERROR.INVALID_CREDENTIALS) ∧
    (∀ password, User.comparePassword user password = false →
        (AuthService.login env db now env.ADMIN_EMAIL password).1 =
          Except.error AUTH_MESSAGES.ERROR.INVALID_CREDENTIALS) ∧
    (∀ email password password2, email ≠ env.ADMIN_EMAIL →
        User.comparePassword user password2 = false →
        (AuthController.login env db now email password).1 =
          { status := 401, success := false, message := none,
            error := some AUTH_MESSAGES.ERROR.INVALID_CREDENTIALS, user := none,
            accessToken := none, cookie := CookieEffect.untouched } ∧
        (AuthController.login env db now env.ADMIN_EMAIL password2).1 =
          (AuthController.login env db now email password).1) := by
  have h1 : ∀ email password, email ≠ env.ADMIN_EMAIL →
      AuthService.login env db now email password =
        (Except.error AUTH_MESSAGES.ERROR.INVALID_CREDENTIALS, db) :=
    fun email password h => AuthService.login_wrong_email env db now email password h
  have h2 : ∀ password, User.comparePassword user password = false →
      AuthService.login env db now env.ADMIN_EMAIL password =
        (Except.error AUTH_MESSAGES.ERROR.INVALID_CREDENTIALS, db0) := by
    intro password hc
    rw [AuthService.login_of_loaded now password hpw hload]
    simp [AuthService.checkPassword, hc]
  refine ⟨fun email password h => by rw [h1 email password h], fun password h => by rw [h2 password h], ?_⟩
  intro email password password2 he hc
  simp [AuthController.login, h1 email password he, h2 password2 hc]

theorem C4_invalid_credentials_uniform_witness :
    (∀ email password, email ≠ demoEnv.ADMIN_EMAIL →
        (AuthService.login demoEnv [demoAdmin] 7000 email password).1 =
          Except.error AUTH_MESSAGES.ERROR.INVALID_CREDENTIALS) ∧
    (∀ password, User.comparePassword demoAdmin password = false →
        (AuthService.login demoEnv [demoAdmin] 7000 demoEnv.ADMIN_EMAIL password).1 =
          Except.error AUTH_MESSAGES.ERROR.INVALID_CREDENTIALS) ∧
    (∀ email password password2, email ≠ demoEnv.ADMIN_EMAIL →
        User.comparePassword demoAdmin password2 = false →
        (AuthController.login demoEnv [demoAdmin] 7000 email password).1 =
          { status := 401, success := false, message := none,
            error := some AUTH_MESSAGES.ERROR.INVALID_CREDENTIALS, user := none,
            accessToken := none, cookie := CookieEffect.untouched } ∧
        (AuthController.login demoEnv [demoAdmin] 7000 demoEnv.ADMIN_EMAIL password2).1 =
          (AuthController.login demoEnv [demoAdmin] 7000 email password).1) :=
  C4_invalid_credentials_uniform demoEnv [demoAdmin] [demoAdmin] 7000 "secret1" demoAdmin rfl rfl

/-- C5, as stated, fails: on an empty store a login with the configured email and
a wrong secret fails, and yet leaves the administrator identity in the store. -/
theorem C5_failed_login_creates_identity :
    AuthService.login demoEnv [] 7000 "admin@x.com" "wrong1" =
      (Except.error "Invalid email or password",
        [{ _id := 1, email := "admin@x.com", password := bcrypt.hash "secret1",
           role := "admin", isActive := true, lastLoginAt := none, refreshTokens := [] }]) :=
  rfl

/-- C5 (amended): on a store holding no identity for the configured email, a
login with another email fails and leaves the store unchanged; a login with the
configured email, the administrator password being configured and accepted by
the schema, inserts the identity with role `admin` before the secret is checked,
so that a wrong secret fails with the identity created; and the configured
secret, the signing keys being configured, creates the identity and succeeds. -/
theorem C5_identity_created_by_admin_login (env : Env) (db : Store) (now : Nat)
    (adminPassword : String)
    (hfree : ∀ u ∈ db, u.email ≠ User.normalizeEmail env.ADMIN_EMAIL)
    (hpw : env.ADMIN_PASSWORD = some adminPassword)
    (hne : User.normalizeEmail env.ADMIN_EMAIL ≠ "")
    (hpat : env.emailPattern (User.normalizeEmail env.ADMIN_EMAIL) = true)
    (hlen : 6 ≤ adminPassword.length) :
    (∀ email password, email ≠ env.ADMIN_EMAIL →
        AuthService.login env db now email password =
          (Except.error AUTH_MESSAGES.ERROR.INVALID_CREDENTIALS, db)) ∧
    (User.created db env.ADMIN_EMAIL adminPassword "admin").role = "admin" ∧
    (∀ password, password ≠ adminPassword →
        AuthService.login env db now env.ADMIN_EMAIL password =
          (Except.error AUTH_MESSAGES.ERROR.INVALID_CREDENTIALS,
            db ++ [User.created db env.ADMIN_EMAIL adminPassword "admin"])) ∧
    (env.JWT_SECRET.isSome = true → env.JWT_REFRESH_SECRET.isSome = true →
        ∃ res db1, AuthService.login env db now env.ADMIN_EMAIL adminPassword =
            (Except.ok res, db1) ∧
          res.user.role = "admin" ∧
          User.findById db1 (some (User.freshId db)) =
            some { User.created db env.ADMIN_EMAIL adminPassword "admin" with
                    refreshTokens := [{ token := res.refreshToken, createdAt := now }],
                    lastLoginAt := some now }) := by
  have hfc := @AuthService.findOrCreateAdmin_of_free env db adminPassword hfree hne hpat hlen
  refine ⟨fun email password h => AuthService.login_wrong_email env db now email password h,
    rfl, ?_, ?_⟩
  · intro password hp
    rw [AuthService.login_of_loaded now password hpw hfc]
    have hc : User.comparePassword (User.created db env.ADMIN_EMAIL adminPassword "admin")
        password = false := by
      simp [User.comparePassword, User.created, bcrypt.compare, bcrypt.hash, hp]
    simp [AuthService.checkPassword, hc]
  · intro h1 h2
    obtain ⟨k1, hk1⟩ := Option.isSome_iff_exists.mp h1
    obtain ⟨k2, hk2⟩ := Option.isSome_iff_exists.mp h2
    have hg := (JWTService.generateTokenPair_ok_iff env now
      (User.created db env.ADMIN_EMAIL adminPassword "admin") _).mpr ⟨k1, k2, hk1, hk2, rfl⟩
    have hc : User.comparePassword (User.created db env.ADMIN_EMAIL adminPassword "admin")
        adminPassword = true := by
      simp [User.comparePassword, User.created, bcrypt.compare, bcrypt.hash]
    rw [AuthService.login_of_loaded now adminPassword hpw hfc]
    simp only [AuthService.checkPassword, hc, Bool.not_true, Bool.false_eq_true, if_false]
    rw [AuthService.issueSession_eq, hg]
    refine ⟨_, _, rfl, rfl, ?_⟩
    exact User.findById_save_self
      (User.findById_save_self (User.findById_append_created db env.ADMIN_EMAIL adminPassword "admin")
        (v := { User.created db env.ADMIN_EMAIL adminPassword "admin" with refreshTokens :=
            (User.created db env.ADMIN_EMAIL adminPassword "admin").refreshTokens ++
              [{ token := _, createdAt := now }] }) rfl)
      rfl

theorem C5_identity_created_by_admin_login_witness :
    (∀ u ∈ ([] : Store), u.email ≠ User.normalizeEmail demoEnv.ADMIN_EMAIL) ∧
    demoEnv.ADMIN_PASSWORD = some "secret1" ∧
    User.normalizeEmail demoEnv.ADMIN_EMAIL ≠ "" ∧
    demoEnv.emailPattern (User.normalizeEmail demoEnv.ADMIN_EMAIL) = true ∧
    6 ≤ "secret1".length ∧
    AuthService.login demoEnv [] 7000 demoEnv.ADMIN_EMAIL "wrong1" =
      (Except.error AUTH_MESSAGES.ERROR.INVALID_CREDENTIALS,
        [] ++ [User.created [] demoEnv.ADMIN_EMAIL "secret1" "admin"]) :=
  ⟨by simp, rfl, by decide, rfl, by decide,
    (C5_identity_created_by_admin_login demoEnv [] 7000 "secret1" (by simp) rfl (by decide) rfl
      (by decide)).2.2.1 "wrong1" (by decide)⟩

/-- C6: when `login` succeeds, the identity `user` it worked on (found, or
created with no records) has records `R`; the returned tokens are the pair that
`generateTokenPair` makes for `user` at that instant; the stored identity has
records `R` followed by one record holding the returned refresh token, and
`lastLoginAt` set to the instant of the call; and `refreshToken` accepts the
returned refresh token right afterwards. -/
theorem C6_login_issues_session (env : Env) (db db1 : Store) (now : Nat)
    (email password : String) (res : AuthResult)
    (hwf : Store.uniqueIds db)
    (h : AuthService.login env db now email password = (Except.ok res, db1)) :
    ∃ adminPassword user db0,
      env.ADMIN_PASSWORD = some adminPassword ∧
      AuthService.findOrCreateAdmin env db email adminPassword = (Except.ok user, db0) ∧
      JWTService.generateTokenPair env now user =
        Except.ok { accessToken := res.accessToken, refreshToken := res.refreshToken } ∧
      User.findById db1 (some user._id) =
        some { user with
                refreshTokens :=
                  user.refreshTokens ++ [{ token := res.refreshToken, createdAt := now }],
                lastLoginAt := some now } ∧
      ∃ res2 db2, AuthService.refreshToken env db1 now res.refreshToken =
        (Except.ok res2, db2) := by
  have he := (AuthService.login_ok_inv h).1
  obtain ⟨adminPassword, user, db0, hpw, hfc, hg, _, hf, _, hacc⟩ := AuthService.login_session hwf h
  refine ⟨adminPassword, user, db0, hpw, ?_, hg, hf, hacc now ?_⟩
  · rw [he]; exact hfc
  · simp [AUTH_CONFIG.JWT.REFRESH_TOKEN_EXPIRY]

theorem C6_login_issues_session_witness :
    Store.uniqueIds [demoAdmin] ∧
    demoLogin = (Except.ok demoLoginResult, demoLogin.2) ∧
    ∃ adminPassword user db0,
      demoEnv.ADMIN_PASSWORD = some adminPassword ∧
      AuthService.findOrCreateAdmin demoEnv [demoAdmin] "admin@x.com" adminPassword =
        (Except.ok user, db0) ∧
      JWTService.generateTokenPair demoEnv 7000 user =
        Except.ok { accessToken := demoLoginResult.accessToken,
                    refreshToken := demoLoginResult.refreshToken } ∧
      User.findById demoLogin.2 (some user._id) =
        some { user with
                refreshTokens :=
                  user.refreshTokens ++
                    [{ token := demoLoginResult.refreshToken, createdAt := 7000 }],
                lastLoginAt := some 7000 } ∧
      ∃ res2 db2,
        AuthService.refreshToken demoEnv demoLogin.2 7000 demoLoginResult.refreshToken =
          (Except.ok res2, db2) :=
  ⟨by unfold Store.uniqueIds; decide, rfl,
    C6_login_issues_session demoEnv [demoAdmin] demoLogin.2 7000 "admin@x.com" "secret1"
      demoLoginResult (by unfold Store.uniqueIds; decide) rfl⟩

/-- C7: after `logoutAllDevices(userId)` on a stored identity, the identity has no
refresh-token records and is otherwise unchanged, and no other identity is
touched; `refreshToken` then fails for every refresh token of that identity, in
particular for every one that had a record before the call; and a `login` that
succeeded before the call still succeeds after it and returns a refresh token
that `refreshToken` accepts. -/
theorem C7_logout_all_revokes_sessions (db : Store) (id : Nat) (u : User)
    (hwf : Store.uniqueIds db) (hf : User.findById db (some id) = some u) :
    (AuthService.logoutAllDevices db (some id)).1 = Except.ok () ∧
    User.findById (AuthService.logoutAllDevices db (some id)).2 (some id) =
      some { u with refreshTokens := [] } ∧
    (∀ j, j ≠ id →
      User.findById (AuthService.logoutAllDevices db (some id)).2 (some j) =
        User.findById db (some j)) ∧
    (∀ env now T,
      (∀ decoded, JWTService.verifyRefreshToken env now T = Except.ok decoded →
        AuthService.referencedIdentity db decoded = some u) →
      ∃ e, AuthService.refreshToken env (AuthService.logoutAllDevices db (some id)).2 now T =
        (Except.error e, (AuthService.logoutAllDevices db (some id)).2)) ∧
    (∀ env now email password res dbL,
      AuthService.login env db now email password = (Except.ok res, dbL) →
      ∃ res1 dbL1,
        AuthService.login env (AuthService.logoutAllDevices db (some id)).2 now email password =
          (Except.ok res1, dbL1) ∧
        ∃ res2 db2, AuthService.refreshToken env dbL1 now res1.refreshToken =
          (Except.ok res2, db2)) := by
  have hid := User.findById_some_id hf
  subst hid
  rw [AuthService.logoutAllDevices_of_found hf]
  refine ⟨rfl, User.findById_save_self hf rfl, ?_, ?_, ?_⟩
  · intro j hj
    exact User.findById_save_other (by simpa using hj)
  · intro env now T hown
    cases hv : JWTService.verifyRefreshToken env now T with
    | error e => exact ⟨e, by simp [AuthService.refreshToken, hv]⟩
    | ok decoded =>
      have hu := AuthService.referencedIdentity_save (hown decoded hv)
        (v := { u with refreshTokens := [] }) rfl
      by_cases ha : u.isActive = true
      · refine ⟨AUTH_MESSAGES.ERROR.INVALID_TOKEN, ?_⟩
        rw [AuthService.refreshToken_of_loaded hv hu ha]
        simp
      · refine ⟨AUTH_MESSAGES.ERROR.USER_NOT_FOUND, ?_⟩
        obtain ⟨hc, hfd⟩ := AuthService.referencedIdentity_some_id hu
        simp only [AuthService.refreshToken, hv]
        simp only [hc]
        simp only [hfd]
        simp [ha]
  · intro env now email password res dbL hlogin
    obtain ⟨he, adminPassword, user, db0, tokens, hpw, hfc, hcmp, hg, _, _⟩ :=
      AuthService.login_ok_inv hlogin
    subst he
    obtain ⟨user1, db01, hfc1, hpass⟩ := AuthService.findOrCreateAdmin_save hf
      (v := { u with refreshTokens := [] }) rfl hfc
    obtain ⟨tokens1, hg1⟩ := JWTService.generateTokenPair_ok_of_ok hg now user1
    have hcmp1 : User.comparePassword user1 password = true := by
      simpa [User.comparePassword, hpass] using hcmp
    have hlogin1 : AuthService.login env (User.save db { u with refreshTokens := [] }) now
        env.ADMIN_EMAIL password =
        (Except.ok { user := User.toJSON (User.loggedIn user1 tokens1.refreshToken now),
                     accessToken := tokens1.accessToken, refreshToken := tokens1.refreshToken },
         User.save
           (User.save db01 { user1 with refreshTokens :=
              user1.refreshTokens ++ [{ token := tokens1.refreshToken, createdAt := now }] })
           (User.loggedIn user1 tokens1.refreshToken now)) := by
      rw [AuthService.login_of_loaded now password hpw hfc1]
      simp only [AuthService.checkPassword, hcmp1, Bool.not_true, Bool.false_eq_true, if_false]
      rw [AuthService.issueSession_eq, hg1]
    refine ⟨_, _, hlogin1, ?_⟩
    obtain ⟨_, _, _, _, _, _, _, _, _, hacc⟩ :=
      AuthService.login_session (User.uniqueIds_save _ hwf) hlogin1
    exact hacc now (by simp [AUTH_CONFIG.JWT.REFRESH_TOKEN_EXPIRY])

theorem C7_logout_all_revokes_sessions_witness :
    Store.uniqueIds [demoAdmin] ∧ User.findById [demoAdmin] (some 1) = some demoAdmin ∧
    User.findById (AuthService.logoutAllDevices [demoAdmin] (some 1)).2 (some 1) =
      some { demoAdmin with refreshTokens := [] } :=
  ⟨by unfold Store.uniqueIds; decide, rfl,
    (C7_logout_all_revokes_sessions [demoAdmin] 1 demoAdmin (by unfold Store.uniqueIds; decide)
      rfl).2.1⟩

/-- C8: `logout` never throws; on a stored identity and a non-empty token `T` it
leaves the identity with its records minus those holding `T`, the others in
their order, and touches no other identity; a second `logout` with the same
arguments returns without error and leaves the store exactly as it is. -/
theorem C8_logout_idempotent (db : Store) (id : Nat) (u : User) (T : Jwt)
    (hf : User.findById db (some id) = some u) (hT : T ≠ Jwt.malformed "") :
    (∀ (db2 : Store) (t : Option Jwt) (i : Option Nat),
      (AuthService.logout db2 t i).1 = Except.ok ()) ∧
    User.findById (AuthService.logout db (some T) (some id)).2 (some id) =
      some { u with refreshTokens := u.refreshTokens.filter (fun r => r.token ≠ T) } ∧
    (∀ j, j ≠ id →
      User.findById (AuthService.logout db (some T) (some id)).2 (some j) =
        User.findById db (some j)) ∧
    AuthService.logout (AuthService.logout db (some T) (some id)).2 (some T) (some id) =
      (Except.ok (), (AuthService.logout db (some T) (some id)).2) := by
  have hid := User.findById_some_id hf
  subst hid
  have htruthy : AuthService.truthyToken (some T) = some T := by
    unfold AuthService.truthyToken
    split
    · rename_i heq
      exact absurd (Option.some.inj heq) hT
    · rfl
  have h1 : AuthService.logout db (some T) (some u._id) =
      (Except.ok (), User.save db
        { u with refreshTokens := u.refreshTokens.filter (fun r => r.token ≠ T) }) := by
    simp [AuthService.logout, hf, htruthy, User.removeRefreshToken]
  have hf1 : User.findById
      (User.save db { u with refreshTokens := u.refreshTokens.filter (fun r => r.token ≠ T) })
      (some u._id) =
      some { u with refreshTokens := u.refreshTokens.filter (fun r => r.token ≠ T) } :=
    User.findById_save_self hf rfl
  refine ⟨?_, ?_, ?_, ?_⟩
  · intro db2 t i
    unfold AuthService.logout
    split <;> rfl
  · rw [h1]; exact hf1
  · intro j hj
    rw [h1]
    exact User.findById_save_other (by simpa using hj)
  · rw [h1]
    have hsave := User.save_eq_self hf1
    simp only [AuthService.logout, hf1, htruthy, User.removeRefreshToken, List.filter_filter,
      Bool.and_self]
    simp only [Prod.mk.injEq, true_and]
    exact hsave

theorem C8_logout_idempotent_witness :
    User.findById [demoAdmin] (some 1) = some demoAdmin ∧
    demoRefreshToken ≠ Jwt.malformed "" ∧
    AuthService.logout (AuthService.logout [demoAdmin] (some demoRefreshToken) (some 1)).2
        (some demoRefreshToken) (some 1) =
      (Except.ok (), (AuthService.logout [demoAdmin] (some demoRefreshToken) (some 1)).2) :=
  ⟨rfl, by decide,
    (C8_logout_idempotent [demoAdmin] 1 demoAdmin demoRefreshToken rfl (by decide)).2.2.2⟩

/-- C9, as stated, fails: a revoked refresh token is answered `Invalid or expired
token`, a token with a bad signature is answered `Invalid refresh token`, and
the two 401 bodies differ. -/
theorem C9_revoked_and_forged_differ :
    AuthService.refreshToken demoEnv [demoAdminLoggedOut] 6000 demoRefreshToken =
      (Except.error "Invalid or expired token", [demoAdminLoggedOut]) ∧
    AuthService.refreshToken demoEnv [demoAdminLoggedOut] 6000 demoForgedToken =
      (Except.error "Invalid refresh token", [demoAdminLoggedOut]) ∧
    (AuthController.refreshToken demoEnv [demoAdminLoggedOut] 6000 (some demoRefreshToken)).1 ≠
      (AuthController.refreshToken demoEnv [demoAdminLoggedOut] 6000 (some demoForgedToken)).1 :=
  ⟨rfl, rfl, by decide⟩

/-- C9 (amended): a refresh token that verifies on an active identity but has no
matching record is rejected with `Invalid or expired token`; a token signed with
another key than the refresh key is rejected with `Invalid refresh token`;
`AuthController.refreshToken` answers both with status 401, `success: false` and
a cleared cookie, the two bodies differing in the error message only; the store
is unchanged in both cases. -/
theorem C9_revoked_vs_forged (env : Env) (db : Store) (now : Nat) (revoked : Jwt)
    (decoded payload : JsObject) (key : String) (user : User)
    (hv : JWTService.verifyRefreshToken env now revoked = Except.ok decoded)
    (hu : AuthService.referencedIdentity db decoded = some user)
    (ha : user.isActive = true)
    (hnone : ∀ r ∈ user.refreshTokens, r.token ≠ revoked)
    (hkey : env.JWT_REFRESH_SECRET ≠ some key) :
    AuthService.refreshToken env db now revoked =
      (Except.error AUTH_MESSAGES.ERROR.INVALID_TOKEN, db) ∧
    AuthService.refreshToken env db now (Jwt.signed payload key) =
      (Except.error "Invalid refresh token", db) ∧
    AuthController.refreshToken env db now (some revoked) =
      ({ status := 401, success := false, message := none,
         error := some AUTH_MESSAGES.ERROR.INVALID_TOKEN, user := none,
         accessToken := none, cookie := CookieEffect.cleared }, db) ∧
    AuthController.refreshToken env db now (some (Jwt.signed payload key)) =
      ({ status := 401, success := false, message := none,
         error := some "Invalid refresh token", user := none,
         accessToken := none, cookie := CookieEffect.cleared }, db) := by
  have hany : user.refreshTokens.any (fun token => token.token = revoked) = false := by
    rw [List.any_eq_false]
    intro r hr
    simpa using hnone r hr
  have h1 : AuthService.refreshToken env db now revoked =
      (Except.error AUTH_MESSAGES.ERROR.INVALID_TOKEN, db) := by
    rw [AuthService.refreshToken_of_loaded hv hu ha]
    simp [hany]
  have hverify : JWTService.verifyRefreshToken env now (Jwt.signed payload key) =
      Except.error "Invalid refresh token" := by
    unfold JWTService.verifyRefreshToken jwt.verify
    cases hs : env.JWT_REFRESH_SECRET with
    | none => rfl
    | some s =>
      have hne : key ≠ s := by
        intro hc
        apply hkey
        rw [hs, hc]
      simp [hne]
  have h2 : AuthService.refreshToken env db now (Jwt.signed payload key) =
      (Except.error "Invalid refresh token", db) := by
    simp [AuthService.refreshToken, hverify]
  obtain ⟨k, hk, _, _⟩ := JWTService.verifyRefreshToken_ok_signed hv
  refine ⟨h1, h2, ?_, ?_⟩
  · subst hk
    simp only [AuthController.refreshToken, AuthService.truthyToken, h1]
  · simp only [AuthController.refreshToken, AuthService.truthyToken, h2]

theorem C9_revoked_vs_forged_witness :
    AuthService.refreshToken demoEnv [demoAdminLoggedOut] 6000 demoRefreshToken =
      (Except.error AUTH_MESSAGES.ERROR.INVALID_TOKEN, [demoAdminLoggedOut]) ∧
    AuthService.refreshToken demoEnv [demoAdminLoggedOut] 6000 (Jwt.signed demoClaims "guess") =
      (Except.error "Invalid refresh token", [demoAdminLoggedOut]) :=
  ⟨(C9_revoked_vs_forged demoEnv [demoAdminLoggedOut] 6000 demoRefreshToken _ demoClaims "guess"
      demoAdminLoggedOut rfl rfl rfl (by simp [demoAdminLoggedOut]) (by decide)).1,
   (C9_revoked_vs_forged demoEnv [demoAdminLoggedOut] 6000 demoRefreshToken _ demoClaims "guess"
      demoAdminLoggedOut rfl rfl rfl (by simp [demoAdminLoggedOut]) (by decide)).2.1⟩

/-- C10, as stated, fails: verifying a freshly issued access token returns the
claims together with `type`, `iat` and `exp`, which is not the claims object. -/
theorem C10_decoded_has_more_than_claims :
    JWTService.generateAccessToken demoEnv 5000 demoClaims =
      Except.ok (Jwt.signed
        (demoClaims ++ [("type", JsVal.str "access"), ("iat", JsVal.num 5),
          ("exp", JsVal.num 905)]) "k1") ∧
    JWTService.verifyAccessToken demoEnv 5000
        (Jwt.signed
          (demoClaims ++ [("type", JsVal.str "access"), ("iat", JsVal.num 5),
            ("exp", JsVal.num 905)]) "k1") =
      Except.ok (demoClaims ++ [("type", JsVal.str "access"), ("iat", JsVal.num 5),
        ("exp", JsVal.num 905)]) ∧
    JWTService.verifyAccessToken demoEnv 5000
        (Jwt.signed
          (demoClaims ++ [("type", JsVal.str "access"), ("iat", JsVal.num 5),
            ("exp", JsVal.num 905)]) "k1") ≠
      Except.ok demoClaims :=
  ⟨rfl, rfl, by
    intro h
    have h2 : JWTService.verifyAccessToken demoEnv 5000
        (Jwt.signed
          (demoClaims ++ [("type", JsVal.str "access"), ("iat", JsVal.num 5),
            ("exp", JsVal.num 905)]) "k1") =
        Except.ok (demoClaims ++ [("type", JsVal.str "access"), ("iat", JsVal.num 5),
          ("exp", JsVal.num 905)]) := rfl
    rw [h2] at h
    have h3 := Except.ok.inj h
    exact absurd h3 (by decide)⟩

/-- C10 (amended): with both signing keys configured, for every claims payload
`(userId, email, role)`, every issuing time `now` and every verification time
`now2` before the expiry, `verifyAccessToken(generateAccessToken(claims))`
returns the claims, unchanged and in order, followed by `type: access`, `iat`
and `exp = iat + 900`; and `verifyRefreshToken(generateRefreshToken(claims))`
returns the claims followed by `type: refresh`, `iat` and `exp = iat + 604800`. -/
theorem C10_codec_round_trip (env : Env) (now now2 : Nat) (userId email role : JsVal)
    (k1 k2 : String)
    (hk1 : env.JWT_SECRET = some k1) (hk2 : env.JWT_REFRESH_SECRET = some k2) :
    (now2 / 1000 < now / 1000 + AUTH_CONFIG.JWT.ACCESS_TOKEN_EXPIRY →
      ∃ token,
        JWTService.generateAccessToken env now
          [("userId", userId), ("email", email), ("role", role)] = Except.ok token ∧
        JWTService.verifyAccessToken env now2 token =
          Except.ok ([("userId", userId), ("email", email), ("role", role)] ++
            [("type", JsVal.str TOKEN_TYPES.ACCESS), ("iat", JsVal.num (now / 1000)),
             ("exp", JsVal.num (now / 1000 + 900))])) ∧
    (now2 / 1000 < now / 1000 + AUTH_CONFIG.JWT.REFRESH_TOKEN_EXPIRY →
      ∃ token,
        JWTService.generateRefreshToken env now
          [("userId", userId), ("email", email), ("role", role)] = Except.ok token ∧
        JWTService.verifyRefreshToken env now2 token =
          Except.ok ([("userId", userId), ("email", email), ("role", role)] ++
            [("type", JsVal.str TOKEN_TYPES.REFRESH), ("iat", JsVal.num (now / 1000)),
             ("exp", JsVal.num (now / 1000 + 604800))])) := by
  constructor
  · intro hlt
    have hge : ¬ now / 1000 + 900 ≤ now2 / 1000 := by
      simp only [AUTH_CONFIG.JWT.ACCESS_TOKEN_EXPIRY] at hlt
      omega
    refine ⟨Jwt.signed ([("userId", userId), ("email", email), ("role", role)] ++
        [("type", JsVal.str TOKEN_TYPES.ACCESS), ("iat", JsVal.num (now / 1000)),
         ("exp", JsVal.num (now / 1000 + 900))]) k1, ?_, ?_⟩
    · simp [JWTService.generateAccessToken, jwt.sign, hk1, JsObject.setProp, JsObject.getProp,
        jwt.claimIsNumber, List.lookup, AUTH_CONFIG.JWT.ACCESS_TOKEN_EXPIRY]
    · simp [JWTService.verifyAccessToken, jwt.verify, hk1, JsObject.getProp, List.lookup, hge]
  · intro hlt
    have hge : ¬ now / 1000 + 604800 ≤ now2 / 1000 := by
      simp only [AUTH_CONFIG.JWT.REFRESH_TOKEN_EXPIRY] at hlt
      omega
    refine ⟨Jwt.signed ([("userId", userId), ("email", email), ("role", role)] ++
        [("type", JsVal.str TOKEN_TYPES.REFRESH), ("iat", JsVal.num (now / 1000)),
         ("exp", JsVal.num (now / 1000 + 604800))]) k2, ?_, ?_⟩
    · simp [JWTService.generateRefreshToken, jwt.sign, hk2, JsObject.setProp, JsObject.getProp,
        jwt.claimIsNumber, List.lookup, AUTH_CONFIG.JWT.REFRESH_TOKEN_EXPIRY]
    · simp [JWTService.verifyRefreshToken, jwt.verify, hk2, JsObject.getProp, List.lookup, hge]

theorem C10_codec_round_trip_witness :
    demoEnv.JWT_SECRET = some "k1" ∧ demoEnv.JWT_REFRESH_SECRET = some "k2" ∧
    ∃ token,
      JWTService.generateRefreshToken demoEnv 5000
        [("userId", JsVal.oid 1), ("email", JsVal.str "admin@x.com"),
         ("role", JsVal.str "admin")] = Except.ok token ∧
      JWTService.verifyRefreshToken demoEnv 6000 token =
        Except.ok ([("userId", JsVal.oid 1), ("email", JsVal.str "admin@x.com"),
            ("role", JsVal.str "admin")] ++
          [("type", JsVal.str TOKEN_TYPES.REFRESH), ("iat", JsVal.num (5000 / 1000)),
           ("exp", JsVal.num (5000 / 1000 + 604800))]) :=
  ⟨rfl, rfl,
    (C10_codec_round_trip demoEnv 5000 6000 (JsVal.oid 1) (JsVal.str "admin@x.com")
      (JsVal.str "admin") "k1" "k2" rfl rfl).2 (by decide)⟩

/-- C11: for every payload, issuing time and verification time, a token made by
`generateAccessToken` is rejected by `verifyRefreshToken` and a token made by
`generateRefreshToken` is rejected by `verifyAccessToken`, whatever the two keys
are (equal or not) and whatever `type` the payload carried; and a verify
function returns a payload only if the payload's `type` is the expected one. -/
theorem C11_type_exclusive (env : Env) (now now2 : Nat) (payload : JsObject) :
    (∀ token, JWTService.generateAccessToken env now payload = Except.ok token →
      ∃ e, JWTService.verifyRefreshToken env now2 token = Except.error e) ∧
    (∀ token, JWTService.generateRefreshToken env now payload = Except.ok token →
      ∃ e, JWTService.verifyAccessToken env now2 token = Except.error e) ∧
    (∀ token decoded, JWTService.verifyAccessToken env now2 token = Except.ok decoded →
      JsObject.getProp decoded "type" = some (JsVal.str TOKEN_TYPES.ACCESS)) ∧
    (∀ token decoded, JWTService.verifyRefreshToken env now2 token = Except.ok decoded →
      JsObject.getProp decoded "type" = some (JsVal.str TOKEN_TYPES.REFRESH)) := by
  refine ⟨?_, ?_, ?_, ?_⟩
  · intro token hgen
    obtain ⟨p, key, htok, _, htype⟩ := JWTService.generateAccessToken_type hgen
    cases hv : JWTService.verifyRefreshToken env now2 token with
    | error e => exact ⟨e, rfl⟩
    | ok decoded =>
      obtain ⟨key2, htok2, _, htype2⟩ := JWTService.verifyRefreshToken_ok_signed hv
      rw [htok] at htok2
      injection htok2 with hp _
      subst hp
      rw [htype] at htype2
      exact absurd htype2 (by decide)
  · intro token hgen
    obtain ⟨p, key, htok, _, htype⟩ := JWTService.generateRefreshToken_type hgen
    cases hv : JWTService.verifyAccessToken env now2 token with
    | error e => exact ⟨e, rfl⟩
    | ok decoded =>
      obtain ⟨key2, htok2, _, htype2⟩ := JWTService.verifyAccessToken_ok_signed hv
      rw [htok] at htok2
      injection htok2 with hp _
      subst hp
      rw [htype] at htype2
      exact absurd htype2 (by decide)
  · intro token decoded hv
    exact (JWTService.verifyAccessToken_ok_signed hv).choose_spec.2.2
  · intro token decoded hv
    exact (JWTService.verifyRefreshToken_ok_signed hv).choose_spec.2.2

theorem C11_type_exclusive_witness :
    ∃ e, JWTService.verifyRefreshToken demoEnvSameKey 6000
      (Jwt.signed [("type", JsVal.str "access"), ("iat", JsVal.num 5), ("exp", JsVal.num 905)]
        "k") = Except.error e :=
  (C11_type_exclusive demoEnvSameKey 5000 6000 [("type", JsVal.str "refresh")]).1 _ rfl

/-- C12: a correctly signed token whose expiry has elapsed (and that carries no
not-before claim; in particular each token of `generateTokenPair`) is rejected by
`verifyAccessToken` with `Access token expired`, to which `authenticate` answers
401 `Session expired. Please login again.`; by `verifyRefreshToken` with
`Refresh token expired`, which `AuthService.refreshToken` throws unchanged, the
store untouched; a bad signature gives `Invalid access token` and a wrong type
`Invalid token type`, to both of which `authenticate` answers 401 `Invalid or
expired token`; and the two answers differ. -/
theorem C12_expiry_signal (env : Env) (decode : String → Jwt) (db : Store) (now : Nat) :
    (∀ payload key e, env.JWT_SECRET = some key →
      JsObject.getProp payload "nbf" = none →
      JsObject.getProp payload "exp" = some (JsVal.num e) → e ≤ now / 1000 →
      JWTService.verifyAccessToken env now (Jwt.signed payload key) =
        Except.error "Access token expired") ∧
    (∀ authHeader token, JWTService.extractTokenFromHeader authHeader = some token →
      token ≠ "" →
      JWTService.verifyAccessToken env now (decode token) =
        Except.error "Access token expired" →
      Middleware.authenticate env decode db now authHeader =
        Gate.rejected { status := 401, success := false,
                        error := AUTH_MESSAGES.ERROR.SESSION_EXPIRED }) ∧
    (∀ payload key e, env.JWT_REFRESH_SECRET = some key →
      JsObject.getProp payload "nbf" = none →
      JsObject.getProp payload "exp" = some (JsVal.num e) → e ≤ now / 1000 →
      JWTService.verifyRefreshToken env now (Jwt.signed payload key) =
        Except.error "Refresh token expired" ∧
      AuthService.refreshToken env db now (Jwt.signed payload key) =
        (Except.error "Refresh token expired", db)) ∧
    (∀ payload key, env.JWT_SECRET ≠ some key →
      JWTService.verifyAccessToken env now (Jwt.signed payload key) =
        Except.error "Invalid access token") ∧
    (∀ token decoded, jwt.verify token env.JWT_SECRET (now / 1000) = Except.ok decoded →
      JsObject.getProp decoded "type" ≠ some (JsVal.str TOKEN_TYPES.ACCESS) →
      JWTService.verifyAccessToken env now token = Except.error "Invalid token type") ∧
    (∀ authHeader token, JWTService.extractTokenFromHeader authHeader = some token →
      token ≠ "" →
      (JWTService.verifyAccessToken env now (decode token) =
          Except.error "Invalid access token" ∨
        JWTService.verifyAccessToken env now (decode token) =
          Except.error "Invalid token type") →
      Middleware.authenticate env decode db now authHeader =
        Gate.rejected { status := 401, success := false,
                        error := AUTH_MESSAGES.ERROR.INVALID_TOKEN }) ∧
    (∀ user issuedAt tokens,
      JWTService.generateTokenPair env issuedAt user = Except.ok tokens →
      (issuedAt / 1000 + AUTH_CONFIG.JWT.ACCESS_TOKEN_EXPIRY ≤ now / 1000 →
        JWTService.verifyAccessToken env now tokens.accessToken =
          Except.error "Access token expired") ∧
      (issuedAt / 1000 + AUTH_CONFIG.JWT.REFRESH_TOKEN_EXPIRY ≤ now / 1000 →
        JWTService.verifyRefreshToken env now tokens.refreshToken =
          Except.error "Refresh token expired")) ∧
    AUTH_MESSAGES.ERROR.SESSION_EXPIRED ≠ AUTH_MESSAGES.ERROR.INVALID_TOKEN := by
  refine ⟨?_, ?_, ?_, ?_, ?_, ?_, ?_, by decide⟩
  · intro payload key e hk hnbf hexp hel
    simp [JWTService.verifyAccessToken, hk, JWTService.verify_expired hnbf hexp hel]
  · intro authHeader token hx hne hv
    rw [Middleware.authenticate_of_token hx hne, hv]
    rfl
  · intro payload key e hk hnbf hexp hel
    have hv : JWTService.verifyRefreshToken env now (Jwt.signed payload key) =
        Except.error "Refresh token expired" := by
      simp [JWTService.verifyRefreshToken, hk, JWTService.verify_expired hnbf hexp hel]
    refine ⟨hv, ?_⟩
    simp [AuthService.refreshToken, hv]
  · intro payload key hk
    simp [JWTService.verifyAccessToken, JWTService.verify_bad_signature hk]
  · intro token decoded hv ht
    simp [JWTService.verifyAccessToken, hv, ht]
  · intro authHeader token hx hne hv
    rw [Middleware.authenticate_of_token hx hne]
    rcases hv with hv | hv
    · rw [hv]; rfl
    · rw [hv]; rfl
  · intro user issuedAt tokens hg
    obtain ⟨k1, k2, hk1, hk2, htok⟩ :=
      (JWTService.generateTokenPair_ok_iff env issuedAt user tokens).mp hg
    subst htok
    constructor
    · intro hel
      simp [JWTService.verifyAccessToken, hk1,
        @JWTService.verify_expired
          (JWTService.issuedPayload user TOKEN_TYPES.ACCESS (issuedAt / 1000)
            AUTH_CONFIG.JWT.ACCESS_TOKEN_EXPIRY) k1 (now / 1000) _ rfl rfl hel]
    · intro hel
      simp [JWTService.verifyRefreshToken, hk2,
        @JWTService.verify_expired
          (JWTService.issuedPayload user TOKEN_TYPES.REFRESH (issuedAt / 1000)
            AUTH_CONFIG.JWT.REFRESH_TOKEN_EXPIRY) k2 (now / 1000) _ rfl rfl hel]

theorem C12_expiry_signal_witness :
    Middleware.authenticate demoEnv demoDecode [demoAdmin] 905000 (some "Bearer access5") =
      Gate.rejected { status := 401, success := false,
                      error := AUTH_MESSAGES.ERROR.SESSION_EXPIRED } :=
  (C12_expiry_signal demoEnv demoDecode [demoAdmin] 905000).2.1 (some "Bearer access5")
    "access5" (by decide) (by decide) rfl

/-- C13: `authenticate` attaches an identity and calls `next` if and only if the
header yields a non-empty Bearer token, the token verifies as an access token,
and the identity it refers to exists and is active, and then it attaches that
identity and that token; when the token verifies but its identity is absent or
inactive it answers 401 with the `unauthorized` message; when no token can be
extracted it answers 401 `Access token is required`. -/
theorem C13_authenticate_gate (env : Env) (decode : String → Jwt) (db : Store) (now : Nat)
    (authHeader : Option String) :
    ((∃ user token, Middleware.authenticate env decode db now authHeader =
        Gate.next (user, token)) ↔
      ∃ token decoded user,
        JWTService.extractTokenFromHeader authHeader = some token ∧ token ≠ "" ∧
        JWTService.verifyAccessToken env now (decode token) = Except.ok decoded ∧
        AuthService.referencedIdentity db decoded = some user ∧ user.isActive = true) ∧
    (∀ token decoded user,
      JWTService.extractTokenFromHeader authHeader = some token → token ≠ "" →
      JWTService.verifyAccessToken env now (decode token) = Except.ok decoded →
      AuthService.referencedIdentity db decoded = some user → user.isActive = true →
      Middleware.authenticate env decode db now authHeader = Gate.next (user, token)) ∧
    (∀ token decoded id,
      JWTService.extractTokenFromHeader authHeader = some token → token ≠ "" →
      JWTService.verifyAccessToken env now (decode token) = Except.ok decoded →
      User.castObjectId (JsObject.getProp decoded "userId") = Except.ok id →
      (User.findById db id = none ∨
        ∃ user, User.findById db id = some user ∧ user.isActive = false) →
      Middleware.authenticate env decode db now authHeader =
        Gate.rejected { status := 401, success := false,
                        error := AUTH_MESSAGES.ERROR.UNAUTHORIZED }) ∧
    ((JWTService.extractTokenFromHeader authHeader = none ∨
        JWTService.extractTokenFromHeader authHeader = some "") →
      Middleware.authenticate env decode db now authHeader =
        Gate.rejected { status := 401, success := false,
                        error := AUTH_MESSAGES.ERROR.TOKEN_REQUIRED }) := by
  have hfwd : ∀ token decoded user,
      JWTService.extractTokenFromHeader authHeader = some token → token ≠ "" →
      JWTService.verifyAccessToken env now (decode token) = Except.ok decoded →
      AuthService.referencedIdentity db decoded = some user → user.isActive = true →
      Middleware.authenticate env decode db now authHeader = Gate.next (user, token) := by
    intro token decoded user hx hne hv hu ha
    obtain ⟨hc, hf⟩ := AuthService.referencedIdentity_some_id hu
    rw [Middleware.authenticate_of_token hx hne, hv]
    simp only [hc, hf, ha]
    rfl
  refine ⟨⟨?_, ?_⟩, hfwd, ?_, ?_⟩
  · rintro ⟨user, token, h⟩
    cases hx : JWTService.extractTokenFromHeader authHeader with
    | none => simp [Middleware.authenticate, hx] at h
    | some tok =>
      by_cases hne : tok = ""
      · simp [Middleware.authenticate, hx, hne] at h
      · rw [Middleware.authenticate_of_token hx hne] at h
        cases hv : JWTService.verifyAccessToken env now (decode tok) with
        | error e => simp [hv] at h
        | ok decoded =>
          rw [hv] at h
          simp only at h
          cases hc : User.castObjectId (JsObject.getProp decoded "userId") with
          | error e => simp [hc] at h
          | ok id =>
            rw [hc] at h
            simp only at h
            cases hf : User.findById db id with
            | none => simp [hf] at h
            | some u =>
              rw [hf] at h
              simp only at h
              by_cases ha : u.isActive = true
              · refine ⟨tok, decoded, u, rfl, hne, hv, ?_, ha⟩
                simp [AuthService.referencedIdentity, hc, hf]
              · simp [ha] at h
  · rintro ⟨token, decoded, user, hx, hne, hv, hu, ha⟩
    exact ⟨user, token, hfwd token decoded user hx hne hv hu ha⟩
  · intro token decoded id hx hne hv hc hcase
    rw [Middleware.authenticate_of_token hx hne, hv]
    simp only [hc]
    rcases hcase with hf | ⟨user, hf, ha⟩
    · simp [hf]
    · simp [hf, ha]
  · intro hx
    rcases hx with hx | hx
    · simp [Middleware.authenticate, hx]
    · simp [Middleware.authenticate, hx]

theorem C13_authenticate_gate_witness :
    Middleware.authenticate demoEnv demoDecode [demoAdmin] 6000 (some "Bearer access5") =
      Gate.next (demoAdmin, "access5") :=
  (C13_authenticate_gate demoEnv demoDecode [demoAdmin] 6000 (some "Bearer access5")).2.1
    "access5" _ demoAdmin (by decide) (by decide) rfl rfl rfl

/-- C14: with an identity attached, the gate of `authorize(roles)` calls `next` if
and only if the required roles, a single role counting as a one-element array,
are empty or include the identity's role; otherwise it answers 403 with the
fixed `unauthorized` message, the same for every role; with no identity
attached it answers 401 and does not call `next`. -/
theorem C14_authorize_gate (roles : RolesArg) (user : User) :
    (Middleware.authorize roles (some user) = Gate.next () ↔
      roles.toList = [] ∨ user.role ∈ roles.toList) ∧
    (¬ (roles.toList = [] ∨ user.role ∈ roles.toList) →
      Middleware.authorize roles (some user) =
        Gate.rejected { status := 403, success := false,
                        error := AUTH_MESSAGES.ERROR.UNAUTHORIZED }) ∧
    Middleware.authorize roles none =
      Gate.rejected { status := 401, success := false,
                      error := AUTH_MESSAGES.ERROR.UNAUTHORIZED } ∧
    (Middleware.requireAdmin (some user) = Gate.next () ↔ user.role = AUTH_ROLES.ADMIN) := by
  have hreq : ∀ r : RolesArg, Middleware.authorize r (some user) =
      if r.toList.length ≠ 0 ∧ !(r.toList.contains user.role) then
        Gate.rejected { status := 403, success := false,
                        error := AUTH_MESSAGES.ERROR.UNAUTHORIZED }
      else Gate.next () := by
    intro r
    cases r <;> rfl
  have hiff : ∀ r : RolesArg, (r.toList.length ≠ 0 ∧ (!(r.toList.contains user.role)) = true) ↔
      ¬ (r.toList = [] ∨ user.role ∈ r.toList) := by
    intro r
    simp only [ne_eq, List.length_eq_zero, Bool.not_eq_true', List.contains_eq_any_beq,
      List.any_eq_false, beq_iff_eq, not_or]
    constructor
    · rintro ⟨h1, h2⟩
      refine ⟨h1, ?_⟩
      intro hm
      exact h2 _ hm rfl
    · rintro ⟨h1, h2⟩
      refine ⟨h1, ?_⟩
      intro x hx hc
      apply h2
      rw [hc]
      exact hx
  refine ⟨?_, ?_, rfl, ?_⟩
  · rw [hreq roles]
    by_cases hc : roles.toList = [] ∨ user.role ∈ roles.toList
    · have := (hiff roles).not.mpr (not_not.mpr hc)
      rw [if_neg this]
      exact ⟨fun _ => hc, fun _ => rfl⟩
    · have := (hiff roles).mpr hc
      rw [if_pos this]
      simp [hc]
  · intro hc
    rw [hreq roles, if_pos ((hiff roles).mpr hc)]
  · unfold Middleware.requireAdmin
    rw [hreq]
    by_cases hr : user.role = AUTH_ROLES.ADMIN
    · simp [RolesArg.toList, hr]
    · have : ¬ (AUTH_ROLES.ADMIN = user.role) := fun h => hr h.symm
      simp [RolesArg.toList, hr, this]

theorem C14_authorize_gate_witness :
    Middleware.authorize (RolesArg.one "editor") (some demoAdmin) =
      Gate.rejected { status := 403, success := false,
                      error := AUTH_MESSAGES.ERROR.UNAUTHORIZED } :=
  (C14_authorize_gate (RolesArg.one "editor") demoAdmin).2.1 (by decide)

/-- C15: `extractTokenFromHeader` is total; it returns null for a missing or empty
header and for every header that does not start with `Bearer `, and for a header
`Bearer ` followed by `t` it returns `t`, the header without its first seven
characters. -/
theorem C15_extract_token :
    (∀ t : String, JWTService.extractTokenFromHeader (some ("Bearer " ++ t)) = some t) ∧
    JWTService.extractTokenFromHeader none = none ∧
    JWTService.extractTokenFromHeader (some "") = none ∧
    (∀ header : String, (¬ ∃ t, header = "Bearer " ++ t) →
      JWTService.extractTokenFromHeader (some header) = none) ∧
    (∀ header token, JWTService.extractTokenFromHeader (some header) = some token →
      header = "Bearer " ++ token ∧ token = String.mk (header.data.drop 7)) := by
  have hdata : "Bearer ".data = ['B', 'e', 'a', 'r', 'e', 'r', ' '] := rfl
  have hsplit : ∀ header : String, header.data.take 7 = "Bearer ".data →
      header = "Bearer " ++ String.mk (header.data.drop 7) := by
    intro header h
    apply String.ext
    rw [String.data_append, ← h]
    simp
  refine ⟨?_, rfl, rfl, ?_, ?_⟩
  · intro t
    have h1 : ("Bearer " ++ t).data.take 7 = "Bearer ".data := by
      rw [String.data_append, hdata]
      rfl
    have h2 : ("Bearer " ++ t).data.drop 7 = t.data := by
      rw [String.data_append, hdata]
      rfl
    have h3 : ("Bearer " ++ t) ≠ "" := by
      intro hc
      have := congrArg String.data hc
      rw [String.data_append, hdata] at this
      simp at this
    simp [JWTService.extractTokenFromHeader, h1, h2, h3]
  · intro header hno
    by_cases h : header.data.take 7 = "Bearer ".data
    · exact absurd ⟨_, hsplit header h⟩ hno
    · simp [JWTService.extractTokenFromHeader, h]
  · intro header token h
    by_cases hp : header.data.take 7 = "Bearer ".data
    · by_cases he : header = ""
      · simp [JWTService.extractTokenFromHeader, he] at h
      · simp only [JWTService.extractTokenFromHeader, he, hp, ne_eq, not_true_eq_false,
          or_self, if_false, Option.some.injEq] at h
        subst h
        exact ⟨hsplit header hp, rfl⟩
    · simp [JWTService.extractTokenFromHeader, hp] at h

theorem C15_extract_token_witness :
    JWTService.extractTokenFromHeader (some ("Bearer " ++ "access5")) = some "access5" :=
  C15_extract_token.1 "access5"

/-- C16: the object that the `toJSON` transform returns has no `password`, no
`refreshTokens` and no `__v`, and every other path as in the document; its typed
reading `User.toJSON` does not depend on the password digest or on the
refresh-token records, and carries `_id`, `email`, `role`, `isActive` and
`lastLoginAt` unchanged; the identity returned by a successful `login`, a
successful `refreshToken` and a successful `getProfile` is the `toJSON` form of
the stored user; and `getProfile` fails, with `User not found`, exactly when
the identity is absent or inactive. -/
theorem C16_sanitized_identity :
    (∀ (ret : List (String × DocValue)) (k : String),
      List.lookup k (User.transform ret) =
        if k = "password" ∨ k = "refreshTokens" ∨ k = "__v" then none
        else List.lookup k ret) ∧
    (∀ u : User,
      List.lookup "_id" (User.transform (User.toObject u)) =
        some (DocValue.id (User.toJSON u)._id) ∧
      List.lookup "email" (User.transform (User.toObject u)) =
        some (DocValue.text (User.toJSON u).email) ∧
      List.lookup "role" (User.transform (User.toObject u)) =
        some (DocValue.text (User.toJSON u).role) ∧
      List.lookup "isActive" (User.transform (User.toObject u)) =
        some (DocValue.flag (User.toJSON u).isActive) ∧
      List.lookup "lastLoginAt" (User.transform (User.toObject u)) =
        some (DocValue.date (User.toJSON u).lastLoginAt)) ∧
    (∀ (u : User) (digest : Digest) (records : List RefreshTokenRecord),
      User.toJSON { u with password := digest, refreshTokens := records } = User.toJSON u) ∧
    (∀ u : User, (User.toJSON u)._id = u._id ∧ (User.toJSON u).email = u.email ∧
      (User.toJSON u).role = u.role ∧ (User.toJSON u).isActive = u.isActive ∧
      (User.toJSON u).lastLoginAt = u.lastLoginAt) ∧
    (∀ env db db1 now email password res, Store.uniqueIds db →
      AuthService.login env db now email password = (Except.ok res, db1) →
      ∃ u, User.findById db1 (some res.user._id) = some u ∧ res.user = User.toJSON u) ∧
    (∀ env db db1 now T res,
      AuthService.refreshToken env db now T = (Except.ok res, db1) →
      ∃ u, User.findById db1 (some res.user._id) = some u ∧ res.user = User.toJSON u) ∧
    (∀ db userId profile, AuthService.getProfile db userId = Except.ok profile →
      ∃ u, User.findById db userId = some u ∧ u.isActive = true ∧ profile = User.toJSON u) ∧
    (∀ db userId,
      (∃ e, AuthService.getProfile db userId = Except.error e) ↔
        (User.findById db userId = none ∨
          ∃ u, User.findById db userId = some u ∧ u.isActive = false)) ∧
    (∀ db userId e, AuthService.getProfile db userId = Except.error e →
      e = AUTH_MESSAGES.ERROR.USER_NOT_FOUND) := by
  refine ⟨User.lookup_transform, ?_, fun _ _ _ => rfl, fun _ => ⟨rfl, rfl, rfl, rfl, rfl⟩,
    ?_, ?_, ?_, ?_, ?_⟩
  · intro u
    simp [User.lookup_transform, User.toObject, User.toJSON, List.lookup]
  · intro env db db1 now email password res hwf h
    obtain ⟨_, user, _, _, _, _, hres, hf, _, _⟩ := AuthService.login_session hwf h
    refine ⟨User.loggedIn user res.refreshToken now, ?_, hres⟩
    rw [hres]
    exact hf
  · intro env db db1 now T res h
    obtain ⟨decoded, user, tokens, _, hu, _, _, _, _, _, hres, hdb⟩ :=
      AuthService.refreshToken_ok_inv h
    obtain ⟨_, hf⟩ := AuthService.referencedIdentity_some_id hu
    refine ⟨_, ?_, hres⟩
    rw [hres, hdb]
    exact User.findById_save_self
      (User.findById_save_self hf
        (v := { user with refreshTokens := user.refreshTokens.filter (fun r => r.token ≠ T) }) rfl)
      rfl
  · intro db userId profile h
    unfold AuthService.getProfile at h
    cases hf : User.findById db userId with
    | none => simp [hf] at h
    | some u =>
      rw [hf] at h
      by_cases ha : u.isActive = true
      · simp [ha] at h
        exact ⟨u, rfl, ha, h.symm⟩
      · simp [ha] at h
  · intro db userId
    unfold AuthService.getProfile
    cases hf : User.findById db userId with
    | none => simp
    | some u =>
      by_cases ha : u.isActive = true
      · simp [ha]
      · simp [ha]
  · intro db userId e h
    unfold AuthService.getProfile at h
    cases hf : User.findById db userId with
    | none =>
      rw [hf] at h
      simp only [Except.error.injEq] at h
      exact h.symm
    | some u =>
      rw [hf] at h
      by_cases ha : u.isActive = true
      · simp [ha] at h
      · simp [ha] at h
        exact h.symm

theorem C16_sanitized_identity_witness :
    ∃ u, User.findById demoLogin.2 (some demoLoginResult.user._id) = some u ∧
      demoLoginResult.user = User.toJSON u :=
  C16_sanitized_identity.2.2.2.2.1 demoEnv [demoAdmin] demoLogin.2 7000 "admin@x.com" "secret1"
    demoLoginResult (by unfold Store.uniqueIds; decide) rfl

/-- C17, as stated, fails: when the database does not answer, `AuthService.logout`
throws and `AuthController.logout` clears the cookie but answers 500 with
`success: false` and `Logout failed`. -/
theorem C17_failed_logout_answers_500 :
    (AuthController.logout (Database.down "connection lost") [demoAdmin]
        (some demoRefreshToken) (some demoAdmin)).1 =
      { status := 500, success := false, message := none, error := some "Logout failed",
        user := none, accessToken := none, cookie := CookieEffect.cleared } :=
  rfl

/-- C17 (amended): `AuthController.logout` clears the refresh-token cookie on
every request; when `AuthService.logout` returns it answers 200 with
`success: true` and `Logout successful`; when `AuthService.logout` throws it
answers 500 with `success: false` and `Logout failed`. -/
theorem C17_logout_response (database : Database) (db : Store) (cookie : Option Jwt)
    (reqUser : Option User) :
    (AuthController.logout database db cookie reqUser).1.cookie = CookieEffect.cleared ∧
    ((∃ db1, AuthService.logoutOn database db cookie (reqUser.map (fun u => u._id)) =
        (Except.ok (), db1)) →
      (AuthController.logout database db cookie reqUser).1 =
        { status := 200, success := true, message := some AUTH_MESSAGES.SUCCESS.LOGOUT,
          error := none, user := none, accessToken := none, cookie := CookieEffect.cleared }) ∧
    ((∃ e db1, AuthService.logoutOn database db cookie (reqUser.map (fun u => u._id)) =
        (Except.error e, db1)) →
      (AuthController.logout database db cookie reqUser).1 =
        { status := 500, success := false, message := none, error := some "Logout failed",
          user := none, accessToken := none, cookie := CookieEffect.cleared }) ∧
    (database = Database.up →
      (AuthController.logout database db cookie reqUser).1.success = true) ∧
    (∀ message, database = Database.down message →
      (AuthController.logout database db cookie reqUser).1.success = false) := by
  have hup : ∀ c i, (AuthService.logout db c i).1 = Except.ok () := by
    intro c i
    unfold AuthService.logout
    split <;> rfl
  cases database with
  | down message =>
    refine ⟨rfl, ?_, fun _ => rfl, ?_, fun _ _ => rfl⟩
    · rintro ⟨db1, h⟩
      simp [AuthService.logoutOn] at h
    · intro h
      cases h
  | up =>
    have hres : AuthService.logoutOn Database.up db cookie (reqUser.map (fun u => u._id)) =
        (Except.ok (), (AuthService.logout db cookie (reqUser.map (fun u => u._id))).2) := by
      unfold AuthService.logoutOn
      simp only
      rw [← hup cookie (reqUser.map (fun u => u._id))]
    refine ⟨?_, ?_, ?_, ?_, ?_⟩
    · simp [AuthController.logout, hres]
    · intro _
      simp [AuthController.logout, hres]
    · rintro ⟨e, db1, h⟩
      rw [hres] at h
      simp at h
    · intro _
      simp [AuthController.logout, hres]
    · intro message h
      cases h

theorem C17_logout_response_witness :
    (AuthController.logout Database.up [demoAdmin] (some demoRefreshToken)
      (some demoAdmin)).1.success = true ∧
    (AuthController.logout (Database.down "connection lost") [demoAdmin]
      (some demoRefreshToken) (some demoAdmin)).1.success = false :=
  ⟨(C17_logout_response Database.up [demoAdmin] (some demoRefreshToken)
      (some demoAdmin)).2.2.2.1 rfl,
   (C17_logout_response (Database.down "connection lost") [demoAdmin] (some demoRefreshToken)
      (some demoAdmin)).2.2.2.2 "connection lost" rfl⟩

/-- C19: when `optionalAuth` attaches no identity (no token in the header, or a
token that does not verify), or when the refresh-token cookie is missing or
empty, the route `POST /logout` changes nothing in the store and answers 200
with `success: true`; `AuthService.logout` itself returns without error and
without a write whenever the identity reference resolves to nothing or the
token is empty; hence every refresh token that `refreshToken` accepted before
is accepted afterwards, with the same result. -/
theorem C19_logout_without_identity (env : Env) (decode : String → Jwt) (db : Store)
    (now : Nat) (authHeader : Option String) (cookie : Option Jwt)
    (h : Middleware.optionalAuth env decode db now authHeader = none ∨
      AuthService.truthyToken cookie = none) :
    Routes.logout env decode Database.up db now authHeader cookie =
      ({ status := 200, success := true, message := some AUTH_MESSAGES.SUCCESS.LOGOUT,
         error := none, user := none, accessToken := none, cookie := CookieEffect.cleared },
       db) ∧
    (∀ (token : Option Jwt) (userId : Option Nat),
      User.findById db userId = none ∨ AuthService.truthyToken token = none →
      AuthService.logout db token userId = (Except.ok (), db)) ∧
    (∀ T now2 res db2,
      AuthService.refreshToken env db now2 T = (Except.ok res, db2) →
      AuthService.refreshToken env
          (Routes.logout env decode Database.up db now authHeader cookie).2 now2 T =
        (Except.ok res, db2)) ∧
    (JWTService.extractTokenFromHeader authHeader = none →
      Middleware.optionalAuth env decode db now authHeader = none) ∧
    (∀ token e, JWTService.extractTokenFromHeader authHeader = some token →
      JWTService.verifyAccessToken env now (decode token) = Except.error e →
      Middleware.optionalAuth env decode db now authHeader = none) := by
  have hnoop : ∀ (token : Option Jwt) (userId : Option Nat),
      User.findById db userId = none ∨ AuthService.truthyToken token = none →
      AuthService.logout db token userId = (Except.ok (), db) := by
    intro token userId hc
    unfold AuthService.logout
    rcases hc with hc | hc
    · rw [hc]
    · rw [hc]
      split
      · rename_i heq
        simp at heq
      · rfl
  have hroute : Routes.logout env decode Database.up db now authHeader cookie =
      ({ status := 200, success := true, message := some AUTH_MESSAGES.SUCCESS.LOGOUT,
         error := none, user := none, accessToken := none, cookie := CookieEffect.cleared },
       db) := by
    have hsvc : AuthService.logout db cookie
        (((Middleware.optionalAuth env decode db now authHeader).map (fun a => a.1)).map
          (fun u => u._id)) = (Except.ok (), db) := by
      apply hnoop
      rcases h with h | h
      · left
        rw [h]
        rfl
      · right
        exact h
    simp only [Routes.logout, AuthController.logout, AuthService.logoutOn, hsvc]
  refine ⟨hroute, hnoop, ?_, ?_, ?_⟩
  · intro T now2 res db2 hacc
    rw [hroute]
    exact hacc
  · intro hx
    simp [Middleware.optionalAuth, hx]
  · intro token e hx hv
    unfold Middleware.optionalAuth
    rw [hx]
    by_cases hne : token = ""
    · simp [hne]
    · simp [hne, hv]

theorem C19_logout_without_identity_witness :
    (Middleware.optionalAuth demoEnv demoDecode [demoAdmin] 6000 none = none ∨
      AuthService.truthyToken (some demoRefreshToken) = none) ∧
    Routes.logout demoEnv demoDecode Database.up [demoAdmin] 6000 none (some demoRefreshToken) =
      ({ status := 200, success := true, message := some AUTH_MESSAGES.SUCCESS.LOGOUT,
         error := none, user := none, accessToken := none, cookie := CookieEffect.cleared },
       [demoAdmin]) :=
  ⟨Or.inl rfl,
    (C19_logout_without_identity demoEnv demoDecode [demoAdmin] 6000 none
      (some demoRefreshToken) (Or.inl rfl)).1⟩
